import Mathlib

/-!
Verification of the `rust-server-superdev` HTTP service: a stateless Solana
instruction-building server.  The seven request handlers
(`generate_keypair`, `create_token`, `mint_token`, `sign_message`,
`verify_message`, `send_sol`, `send_token`) are embedded shallowly: each
Rust handler `fn(Request) -> Result<SuccessResponse<T>, ErrorResponse>`
becomes a Lean function into `Except ErrorResponse (SuccessResponse T)`.
Bytes are `Nat` below 256, byte strings are `List Nat`, and the base58 /
base64 codecs of the `bs58` and `base64` crates are modelled executably.
Cryptographic primitives of the external Solana SDK (Ed25519 signing and
verification, associated-token-account derivation) are modelled as opaque
but executable deterministic functions; no theorem below depends on their
byte-level values.
-/

/-- The base58 alphabet used by the `bs58` crate (Bitcoin alphabet). -/
def base58Alphabet : List Char :=
  "123456789ABCDEFGHJKLMNPQRSTUVWXYZabcdefghijkmnopqrstuvwxyz".data

/-- Index of a character in the base58 alphabet, `none` for an invalid char. -/
def base58CharVal (c : Char) : Option Nat :=
  base58Alphabet.findIdx? (· = c)

/-- Big-endian digits of a natural number in the given base (plus 2), with
no leading zero digits.  Structural recursion on a fuel argument keeps the
definition kernel-reducible; `fuel ≥ n` always suffices since the value
shrinks at each division. -/
def natToDigitsAux (base2 : Nat) : Nat → Nat → List Nat
  | _, 0 => []
  | 0, _ + 1 => []
  | fuel + 1, n + 1 =>
    natToDigitsAux base2 fuel ((n + 1) / (base2 + 2)) ++ [(n + 1) % (base2 + 2)]

/-- Big-endian base-256 digits of a natural number (no leading zero bytes). -/
def natToBEBytes (n : Nat) : List Nat :=
  natToDigitsAux 254 n n

/-- Big-endian base-58 digits of a natural number (no leading zero digits). -/
def natToBase58Digits (n : Nat) : List Nat :=
  natToDigitsAux 56 n n

/-- Model of `bs58::decode(s).into_vec()`: every character must lie in the
base58 alphabet; each leading `'1'` contributes a leading zero byte and the
remaining value is written in big-endian base 256. -/
def base58Decode (s : String) : Option (List Nat) :=
  match s.data.mapM base58CharVal with
  | none => none
  | some ds =>
    let ones := (s.data.takeWhile (· = '1')).length
    let value := ds.foldl (fun a d => a * 58 + d) 0
    some (List.replicate ones 0 ++ natToBEBytes value)

/-- Model of `bs58::encode(bytes).into_string()`: each leading zero byte
becomes `'1'`, the rest is the big-endian base-58 numeral of the value. -/
def bs58Encode (bytes : List Nat) : String :=
  let zeros := (bytes.takeWhile (· = 0)).length
  let value := bytes.foldl (fun a b => a * 256 + b) 0
  String.mk (List.replicate zeros '1' ++
    (natToBase58Digits value).map (fun d => base58Alphabet.getD d '1'))

/-- The standard base64 alphabet. -/
def base64Alphabet : List Char :=
  "ABCDEFGHIJKLMNOPQRSTUVWXYZabcdefghijklmnopqrstuvwxyz0123456789+/".data

/-- Index of a character in the base64 alphabet, `none` for an invalid char. -/
def base64CharVal (c : Char) : Option Nat :=
  base64Alphabet.findIdx? (· = c)

/-- Encode a list of bytes in 3-byte groups, with `'='` padding. -/
def base64EncodeGroups : List Nat → List Char
  | [] => []
  | [b1] =>
    [base64Alphabet.getD (b1 / 4) 'A',
     base64Alphabet.getD (b1 % 4 * 16) 'A', '=', '=']
  | [b1, b2] =>
    [base64Alphabet.getD (b1 / 4) 'A',
     base64Alphabet.getD (b1 % 4 * 16 + b2 / 16) 'A',
     base64Alphabet.getD (b2 % 16 * 4) 'A', '=']
  | b1 :: b2 :: b3 :: rest =>
    base64Alphabet.getD (b1 / 4) 'A' ::
    base64Alphabet.getD (b1 % 4 * 16 + b2 / 16) 'A' ::
    base64Alphabet.getD (b2 % 16 * 4 + b3 / 64) 'A' ::
    base64Alphabet.getD (b3 % 64) 'A' :: base64EncodeGroups rest

/-- Model of `base64::encode`: standard alphabet with padding. -/
def base64Encode (bytes : List Nat) : String :=
  String.mk (base64EncodeGroups bytes)

/-- Decode base64 body characters (padding already stripped) in groups of 4;
groups of 2 or 3 may only occur at the end and their unused low bits must be
zero, as the `base64` crate checks. -/
def base64DecodeGroups : List Nat → Option (List Nat)
  | [] => some []
  | [_] => none
  | [v1, v2] => if v2 % 16 = 0 then some [v1 * 4 + v2 / 16] else none
  | [v1, v2, v3] =>
    if v3 % 4 = 0 then some [v1 * 4 + v2 / 16, v2 % 16 * 16 + v3 / 4] else none
  | v1 :: v2 :: v3 :: v4 :: rest =>
    match base64DecodeGroups rest with
    | none => none
    | some bs =>
      some ((v1 * 4 + v2 / 16) :: (v2 % 16 * 16 + v3 / 4) ::
            (v3 % 4 * 64 + v4) :: bs)

/-- Model of `base64::decode` (the crate's standard config): trailing `'='`
padding (at most two) is stripped, every remaining character must lie in the
alphabet, a remainder of one character is an invalid length, and unused
trailing bits must be zero. -/
def base64Decode (s : String) : Option (List Nat) :=
  let cs := s.data
  let pad := (cs.reverse.takeWhile (· = '=')).length
  let body := cs.take (cs.length - pad)
  if pad > 2 then none
  else if body.any (· = '=') then none
  else
    match body.mapM base64CharVal with
    | none => none
    | some vs =>
      if pad > 0 ∧ (body.length + pad) % 4 ≠ 0 then none
      else base64DecodeGroups vs

/-- Little-endian 8-byte encoding of a `u64` value. -/
def natToLE8 (n : Nat) : List Nat :=
  [n % 256, n / 256 % 256, n / 256 ^ 2 % 256, n / 256 ^ 3 % 256,
   n / 256 ^ 4 % 256, n / 256 ^ 5 % 256, n / 256 ^ 6 % 256, n / 256 ^ 7 % 256]

/-- The bytes of a message string, as `str::as_bytes` produces them.  The
handlers only pass these bytes to the modelled Ed25519 primitives, so the
development never depends on the exact encoding of non-ASCII characters. -/
def stringBytes (s : String) : List Nat :=
  s.data.map Char.toNat

/-- A Solana public key: exactly 32 bytes (`solana_sdk::pubkey::Pubkey`). -/
structure Pubkey where
  bytes : List Nat
deriving DecidableEq, Repr

/-- Model of `Pubkey::try_from(&[u8])`: succeeds exactly on 32 bytes. -/
def Pubkey.tryFrom (l : List Nat) : Option Pubkey :=
  if l.length = 32 then some ⟨l⟩ else none

/-- `Pubkey::to_string` / `bs58::encode(pubkey.to_bytes())`. -/
def Pubkey.toBase58 (p : Pubkey) : String :=
  bs58Encode p.bytes

/-- Composition the handlers' pubkey validation performs: base58-decode then
`Pubkey::try_from`. -/
def pubkeyOfBase58 (s : String) : Option Pubkey :=
  (base58Decode s).bind Pubkey.tryFrom

/-- `solana_sdk::system_program::id()`: the all-zero key. -/
def systemProgramId : Pubkey := ⟨List.replicate 32 0⟩

/-- `spl_token::id()`: bytes of `TokenkegQfeZyiNwAJbNbGKPFXCWuBvf9Ss623VQ5DA`. -/
def tokenProgramId : Pubkey :=
  ⟨[6, 221, 246, 225, 215, 101, 161, 147, 217, 203, 225, 70, 206, 235, 121,
    172, 28, 180, 133, 237, 95, 91, 55, 145, 58, 140, 245, 133, 126, 255, 0,
    169]⟩

/-- `solana_sdk::sysvar::rent::id()`: bytes of
`SysvarRent111111111111111111111111111111111`. -/
def rentSysvarId : Pubkey :=
  ⟨[6, 167, 213, 23, 25, 44, 92, 81, 33, 140, 201, 76, 61, 74, 241, 127, 88,
    218, 238, 8, 155, 161, 253, 68, 227, 219, 217, 138, 0, 0, 0, 0]⟩

/-- `solana_sdk::instruction::AccountMeta`. -/
structure AccountMeta where
  pubkey : Pubkey
  is_signer : Bool
  is_writable : Bool
deriving DecidableEq, Repr

/-- `AccountMeta::new(pubkey, signer)`: writable. -/
def AccountMeta.new (pubkey : Pubkey) (signer : Bool) : AccountMeta :=
  ⟨pubkey, signer, true⟩

/-- `AccountMeta::new_readonly(pubkey, signer)`. -/
def AccountMeta.new_readonly (pubkey : Pubkey) (signer : Bool) : AccountMeta :=
  ⟨pubkey, signer, false⟩

/-- `solana_sdk::instruction::Instruction`. -/
structure Instruction where
  program_id : Pubkey
  accounts : List AccountMeta
  data : List Nat
deriving DecidableEq, Repr

/-- An Ed25519 keypair as `solana_sdk::signature::Keypair` exposes it: a
32-byte secret half and a 32-byte public half. -/
structure Keypair where
  secret : List Nat
  pubkey : List Nat
deriving DecidableEq, Repr

/-- Model of `Keypair::from_bytes`: requires exactly 64 bytes and splits them
into secret and public halves.  (The external library additionally rejects
public halves that are not valid curve points; that curve-level check lives
entirely in the external SDK and is not modelled, so the model accepts a
superset of the byte strings the library accepts.) -/
def Keypair.fromBytes (l : List Nat) : Option Keypair :=
  if l.length = 64 then some ⟨l.take 32, l.drop 32⟩ else none

/-- `Keypair::to_bytes`: secret half followed by public half. -/
def Keypair.toBytes (k : Keypair) : List Nat :=
  k.secret ++ k.pubkey

/-- Model of the external SDK's Ed25519 public-key derivation used by
`Keypair::new` (the real computation is scalar multiplication inside the
external library; the model is an unspecified injective deterministic
function of the seed). -/
def edPubkeyOfSeed (seed : List Nat) : List Nat :=
  seed.map (fun b => (b + 7) % 256)

/-- Model of `Keypair::new()` with the OS randomness it draws made an
explicit 32-byte `entropy` argument. -/
def Keypair.ofEntropy (entropy : List Nat) : Keypair :=
  ⟨entropy, edPubkeyOfSeed entropy⟩

/-- Model of the external SDK's Ed25519 signing primitive
(`Keypair::sign_message`): an unspecified deterministic 64-byte function of
secret key and message; no theorem below depends on its byte values. -/
def edSign (secret msg : List Nat) : List Nat :=
  List.replicate 64 ((secret.foldl (· + ·) 0 + msg.foldl (· + ·) 0) % 256)

/-- Model of the external SDK's Ed25519 verification primitive
(`Signature::verify`): an unspecified deterministic boolean; no theorem
below depends on its value. -/
def edVerify (pubkeyBytes msg sig : List Nat) : Bool :=
  sig = List.replicate 64 ((pubkeyBytes.foldl (· + ·) 0 +
    msg.foldl (· + ·) 0) % 256)

/-- A Solana signature: exactly 64 bytes (`solana_sdk::signature::Signature`). -/
structure Signature where
  bytes : List Nat
deriving DecidableEq, Repr

/-- Model of `Signature::try_from(&[u8])`: succeeds exactly on 64 bytes. -/
def Signature.tryFrom (l : List Nat) : Option Signature :=
  if l.length = 64 then some ⟨l⟩ else none

/-- Composition verify_message performs on its signature field:
base64-decode then `Signature::try_from`. -/
def signatureOfBase64 (s : String) : Option Signature :=
  (base64Decode s).bind Signature.tryFrom

/-- Model of `spl_associated_token_account::get_associated_token_address`:
the real derivation is `find_program_address` over SHA-256 inside the
external SDK; the model is an unspecified deterministic function of owner
and mint producing a 32-byte key.  No theorem below depends on its value. -/
def getAssociatedTokenAddress (owner mint : Pubkey) : Pubkey :=
  ⟨(owner.bytes.zipWith (fun a b => (a * 31 + b) % 256) mint.bytes)⟩

/-- `spl_token::instruction::initialize_mint`: checks the program account,
packs tag 0, the decimals byte, the mint authority and the `COption`
freeze authority, with the mint and rent-sysvar accounts. -/
def tokenInstructionInitializeMint (program_id mint_pubkey mint_authority :
    Pubkey) (freeze_authority : Option Pubkey) (decimals : Nat) :
    Except String Instruction :=
  if program_id ≠ tokenProgramId then
    Except.error "IncorrectProgramId"
  else
    Except.ok
      { program_id := program_id
        accounts := [AccountMeta.new mint_pubkey false,
                     AccountMeta.new_readonly rentSysvarId false]
        data := 0 :: decimals :: mint_authority.bytes ++
          (match freeze_authority with
           | some k => 1 :: k.bytes
           | none => [0]) }

/-- `spl_token::instruction::mint_to`: checks the program account, packs tag
7 and the little-endian amount, with mint, destination account and owner
accounts (the owner is a signer when no multisig signers are given). -/
def tokenInstructionMintTo (program_id mint_pubkey account_pubkey
    owner_pubkey : Pubkey) (signer_pubkeys : List Pubkey) (amount : Nat) :
    Except String Instruction :=
  if program_id ≠ tokenProgramId then
    Except.error "IncorrectProgramId"
  else
    Except.ok
      { program_id := program_id
        accounts := [AccountMeta.new mint_pubkey false,
                     AccountMeta.new account_pubkey false,
                     AccountMeta.new_readonly owner_pubkey
                       signer_pubkeys.isEmpty] ++
          signer_pubkeys.map (fun k => AccountMeta.new_readonly k true)
        data := 7 :: natToLE8 amount }

/-- `spl_token::instruction::transfer_checked`: checks the program account,
packs tag 12, the little-endian amount and the decimals byte, with source,
mint, destination and owner accounts. -/
def tokenInstructionTransferChecked (program_id source_pubkey mint_pubkey
    destination_pubkey owner_pubkey : Pubkey) (signer_pubkeys : List Pubkey)
    (amount decimals : Nat) : Except String Instruction :=
  if program_id ≠ tokenProgramId then
    Except.error "IncorrectProgramId"
  else
    Except.ok
      { program_id := program_id
        accounts := [AccountMeta.new source_pubkey false,
                     AccountMeta.new_readonly mint_pubkey false,
                     AccountMeta.new destination_pubkey false,
                     AccountMeta.new_readonly owner_pubkey
                       signer_pubkeys.isEmpty] ++
          signer_pubkeys.map (fun k => AccountMeta.new_readonly k true)
        data := 12 :: natToLE8 amount ++ [decimals] }

/-- `solana_sdk::system_instruction::transfer`: bincode of
`SystemInstruction::Transfer` is the little-endian u32 tag 2 followed by the
little-endian u64 lamports. -/
def systemInstructionTransfer (from_pubkey to_pubkey : Pubkey)
    (lamports : Nat) : Instruction :=
  { program_id := systemProgramId
    accounts := [AccountMeta.new from_pubkey true,
                 AccountMeta.new to_pubkey false]
    data := [2, 0, 0, 0] ++ natToLE8 lamports }

/-! ## `src/utils/response_types.rs` -/

/-- `SuccessResponse<T>` from src/src/utils/response_types.rs. -/
structure SuccessResponse (T : Type) where
  success : Bool
  data : T
deriving DecidableEq, Repr

/-- `SuccessResponse::new(data)`: sets `success` to `true`. -/
def SuccessResponse.new {T : Type} (data : T) : SuccessResponse T :=
  ⟨true, data⟩

/-- `ErrorResponse` from src/src/utils/response_types.rs. -/
structure ErrorResponse where
  success : Bool
  error : String
deriving DecidableEq, Repr

/-- `ErrorResponse::new(error)`: sets `success` to `false`. -/
def ErrorResponse.new (error : String) : ErrorResponse :=
  ⟨false, error⟩

/-- The `AccountInfo` serialization shape declared identically in both
src/src/utils/token.rs and src/src/utils/transfer.rs. -/
structure AccountInfo where
  pubkey : String
  is_signer : Bool
  is_writable : Bool
deriving DecidableEq, Repr

/-- The handlers' account-formatting step: re-encode each account's pubkey
in base58 and copy the flags. -/
def formatAccounts (accounts : List AccountMeta) : List AccountInfo :=
  accounts.map (fun account =>
    { pubkey := bs58Encode account.pubkey.bytes
      is_signer := account.is_signer
      is_writable := account.is_writable })

/-! ## `src/utils/generate_keypair.rs` -/

/-- `KeypairResponse` from src/src/utils/generate_keypair.rs. -/
structure KeypairResponse where
  pubkey : String
  secret : String
deriving DecidableEq, Repr

/-- `generate_keypair` from src/src/utils/generate_keypair.rs.
`Keypair::new()` draws fresh randomness from the operating system; the
embedding passes that randomness explicitly as the 32-byte `entropy`
argument. -/
def generate_keypair (entropy : List Nat) :
    Except ErrorResponse (SuccessResponse KeypairResponse) :=
  let keypair := Keypair.ofEntropy entropy
  let pubkey := bs58Encode keypair.pubkey
  let secret := bs58Encode keypair.toBytes
  Except.ok (SuccessResponse.new ⟨pubkey, secret⟩)

/-! ## `src/utils/token.rs` -/

namespace Token

/-- `CreateTokenRequest` (JSON field `mintAuthority` is `mint_authority`). -/
structure CreateTokenRequest where
  mint_authority : String
  mint : String
  decimals : Nat
deriving DecidableEq, Repr

/-- `MintTokenRequest` (JSON field `mintAuthority` is `mint_authority`). -/
structure MintTokenRequest where
  mint_authority : String
  mint : String
  decimals : Nat
deriving DecidableEq, Repr

/-- `CreateTokenResponse`. -/
structure CreateTokenResponse where
  program_id : String
  accounts : List AccountInfo
  instruction_data : String
deriving DecidableEq, Repr

/-- `MintTokenResponse`. -/
structure MintTokenResponse where
  program_id : String
  accounts : List AccountInfo
  instruction_data : String
deriving DecidableEq, Repr

/-- `SendTokenRequest`. -/
structure SendTokenRequest where
  destination : String
  mint : String
  owner : String
  amount : Nat
deriving DecidableEq, Repr

/-- `SendTokenResponse`. -/
structure SendTokenResponse where
  program_id : String
  accounts : List AccountInfo
  instruction_data : String
deriving DecidableEq, Repr

/-- `validate_pubkey` from src/src/utils/token.rs: base58-decode, then
`Pubkey::try_from`, with field-specific error messages. -/
def validate_pubkey (key field_name : String) : Except ErrorResponse Pubkey :=
  match base58Decode key with
  | none =>
    Except.error (ErrorResponse.new ("Invalid base58 encoding for " ++ field_name))
  | some bytes =>
    match Pubkey.tryFrom bytes with
    | none =>
      Except.error (ErrorResponse.new ("Invalid public key format for " ++ field_name))
    | some p => Except.ok p

/-- `validate_decimals` from src/src/utils/token.rs. -/
def validate_decimals (decimals : Nat) : Except ErrorResponse Unit :=
  if decimals > 9 then
    Except.error (ErrorResponse.new "Decimals must be between 0 and 9")
  else
    Except.ok ()

/-- `validate_amount` from src/src/utils/token.rs. -/
def validate_amount (amount : Nat) : Except ErrorResponse Unit :=
  if amount = 0 then
    Except.error (ErrorResponse.new "Amount must be greater than 0")
  else
    Except.ok ()

/-- `create_token` from src/src/utils/token.rs, with each `?` written as an
explicit match. -/
def create_token (request : CreateTokenRequest) :
    Except ErrorResponse (SuccessResponse CreateTokenResponse) :=
  match validate_pubkey request.mint_authority "mint_authority" with
  | Except.error e => Except.error e
  | Except.ok mint_authority =>
  match validate_pubkey request.mint "mint" with
  | Except.error e => Except.error e
  | Except.ok mint =>
  match validate_decimals request.decimals with
  | Except.error e => Except.error e
  | Except.ok _ =>
  let token_program_id := tokenProgramId
  let accounts := [AccountMeta.new mint true,
                   AccountMeta.new_readonly mint_authority true,
                   AccountMeta.new_readonly rentSysvarId false,
                   AccountMeta.new_readonly systemProgramId false]
  match (tokenInstructionInitializeMint token_program_id mint mint_authority
      none request.decimals).mapError
      (fun e => ErrorResponse.new ("Failed to create token instruction: " ++ e)) with
  | Except.error e => Except.error e
  | Except.ok instruction =>
  Except.ok (SuccessResponse.new
    { program_id := bs58Encode token_program_id.bytes
      accounts := formatAccounts accounts
      instruction_data := base64Encode instruction.data })

/-- The `mint_to` call site inside `mint_token` (src/src/utils/token.rs
lines 147-155): the request's mint is passed both as the mint account and as
the destination token account, and the amount is the constant
1_000_000_000. -/
def mintTokenInstructionOf (mint mint_authority : Pubkey) :
    Except String Instruction :=
  tokenInstructionMintTo tokenProgramId mint mint mint_authority []
    1000000000

/-- `mint_token` from src/src/utils/token.rs. -/
def mint_token (request : MintTokenRequest) :
    Except ErrorResponse (SuccessResponse MintTokenResponse) :=
  match validate_pubkey request.mint_authority "mintAuthority" with
  | Except.error e => Except.error e
  | Except.ok mint_authority =>
  match validate_pubkey request.mint "mint" with
  | Except.error e => Except.error e
  | Except.ok mint =>
  match validate_decimals request.decimals with
  | Except.error e => Except.error e
  | Except.ok _ =>
  let token_program_id := tokenProgramId
  let accounts := [AccountMeta.new mint true,
                   AccountMeta.new_readonly mint_authority true,
                   AccountMeta.new_readonly systemProgramId false]
  match (mintTokenInstructionOf mint mint_authority).mapError
      (fun e => ErrorResponse.new ("Failed to create mint instruction: " ++ e)) with
  | Except.error e => Except.error e
  | Except.ok instruction =>
  Except.ok (SuccessResponse.new
    { program_id := bs58Encode token_program_id.bytes
      accounts := formatAccounts accounts
      instruction_data := base64Encode instruction.data })

/-- `send_token` from src/src/utils/token.rs; `transfer_checked` is called
with the decimals argument hardcoded to 9. -/
def send_token (request : SendTokenRequest) :
    Except ErrorResponse (SuccessResponse SendTokenResponse) :=
  if request.destination.isEmpty ∨ request.mint.isEmpty ∨
      request.owner.isEmpty then
    Except.error (ErrorResponse.new "Missing required fields")
  else
  match validate_pubkey request.destination "destination address" with
  | Except.error e => Except.error e
  | Except.ok destination =>
  match validate_pubkey request.mint "mint address" with
  | Except.error e => Except.error e
  | Except.ok mint =>
  match validate_pubkey request.owner "owner address" with
  | Except.error e => Except.error e
  | Except.ok owner =>
  match validate_amount request.amount with
  | Except.error e => Except.error e
  | Except.ok _ =>
  if owner = destination then
    Except.error
      (ErrorResponse.new "Owner and destination addresses cannot be the same")
  else
  let token_program_id := tokenProgramId
  let owner_ata := getAssociatedTokenAddress owner mint
  let destination_ata := getAssociatedTokenAddress destination mint
  let accounts := [AccountMeta.new owner_ata false,
                   AccountMeta.new destination_ata false,
                   AccountMeta.new_readonly owner true,
                   AccountMeta.new_readonly mint false,
                   AccountMeta.new_readonly token_program_id false]
  match (tokenInstructionTransferChecked token_program_id owner_ata mint
      destination_ata owner [] request.amount 9).mapError
      (fun e =>
        ErrorResponse.new ("Failed to create transfer instruction: " ++ e)) with
  | Except.error e => Except.error e
  | Except.ok instruction =>
  Except.ok (SuccessResponse.new
    { program_id := bs58Encode token_program_id.bytes
      accounts := formatAccounts accounts
      instruction_data := base64Encode instruction.data })

end Token

/-! ## `src/utils/message.rs` -/

namespace Message

/-- `SignMessageRequest`. -/
structure SignMessageRequest where
  message : String
  secret : String
deriving DecidableEq, Repr

/-- `VerifyMessageRequest`. -/
structure VerifyMessageRequest where
  message : String
  signature : String
  pubkey : String
deriving DecidableEq, Repr

/-- `SignMessageResponse`. -/
structure SignMessageResponse where
  signature : String
  public_key : String
  message : String
deriving DecidableEq, Repr

/-- `VerifyMessageResponse`. -/
structure VerifyMessageResponse where
  valid : Bool
  message : String
  pubkey : String
deriving DecidableEq, Repr

/-- `validate_secret_key` from src/src/utils/message.rs: base58-decode, then
`Keypair::from_bytes`. -/
def validate_secret_key (secret : String) : Except ErrorResponse Keypair :=
  match base58Decode secret with
  | none =>
    Except.error (ErrorResponse.new "Invalid base58 encoding for secret key")
  | some secret_bytes =>
    match Keypair.fromBytes secret_bytes with
    | none => Except.error (ErrorResponse.new "Invalid secret key format")
    | some k => Except.ok k

/-- `validate_message` from src/src/utils/message.rs. -/
def validate_message (message : String) : Except ErrorResponse Unit :=
  if message.isEmpty then
    Except.error (ErrorResponse.new "Message cannot be empty")
  else
    Except.ok ()

/-- `validate_signature` from src/src/utils/message.rs: base64-decode, then
`Signature::try_from`. -/
def validate_signature (signature : String) : Except ErrorResponse Signature :=
  match base64Decode signature with
  | none =>
    Except.error (ErrorResponse.new "Invalid base64 encoding for signature")
  | some sig_bytes =>
    match Signature.tryFrom sig_bytes with
    | none => Except.error (ErrorResponse.new "Invalid signature format")
    | some s => Except.ok s

/-- `validate_pubkey` from src/src/utils/message.rs (no field name). -/
def validate_pubkey (pubkey : String) : Except ErrorResponse Pubkey :=
  match base58Decode pubkey with
  | none =>
    Except.error (ErrorResponse.new "Invalid base58 encoding for public key")
  | some pubkey_bytes =>
    match Pubkey.tryFrom pubkey_bytes with
    | none => Except.error (ErrorResponse.new "Invalid public key format")
    | some p => Except.ok p

/-- `sign_message` from src/src/utils/message.rs. -/
def sign_message (request : SignMessageRequest) :
    Except ErrorResponse (SuccessResponse SignMessageResponse) :=
  if request.message.isEmpty ∨ request.secret.isEmpty then
    Except.error (ErrorResponse.new "Missing required fields")
  else
  match validate_message request.message with
  | Except.error e => Except.error e
  | Except.ok _ =>
  match validate_secret_key request.secret with
  | Except.error e => Except.error e
  | Except.ok keypair =>
  let message_bytes := stringBytes request.message
  let signature := edSign keypair.secret message_bytes
  Except.ok (SuccessResponse.new
    { signature := base64Encode signature
      public_key := bs58Encode keypair.pubkey
      message := request.message })

/-- `verify_message` from src/src/utils/message.rs. -/
def verify_message (request : VerifyMessageRequest) :
    Except ErrorResponse (SuccessResponse VerifyMessageResponse) :=
  if request.message.isEmpty ∨ request.signature.isEmpty ∨
      request.pubkey.isEmpty then
    Except.error (ErrorResponse.new "Missing required fields")
  else
  match validate_message request.message with
  | Except.error e => Except.error e
  | Except.ok _ =>
  match validate_signature request.signature with
  | Except.error e => Except.error e
  | Except.ok signature =>
  match validate_pubkey request.pubkey with
  | Except.error e => Except.error e
  | Except.ok pubkey =>
  let message_bytes := stringBytes request.message
  let valid := edVerify pubkey.bytes message_bytes signature.bytes
  Except.ok (SuccessResponse.new
    { valid := valid
      message := request.message
      pubkey := request.pubkey })

end Message

/-! ## `src/utils/transfer.rs` -/

namespace Transfer

/-- `SendSolRequest`. -/
structure SendSolRequest where
  from_addr : String
  to_addr : String
  lamports : Nat
deriving DecidableEq, Repr

/-- `SendSolResponse`. -/
structure SendSolResponse where
  program_id : String
  accounts : List AccountInfo
  instruction_data : String
deriving DecidableEq, Repr

/-- `validate_pubkey` from src/src/utils/transfer.rs (textually identical to
the one in src/src/utils/token.rs). -/
def validate_pubkey (key field_name : String) : Except ErrorResponse Pubkey :=
  match base58Decode key with
  | none =>
    Except.error (ErrorResponse.new ("Invalid base58 encoding for " ++ field_name))
  | some bytes =>
    match Pubkey.tryFrom bytes with
    | none =>
      Except.error (ErrorResponse.new ("Invalid public key format for " ++ field_name))
    | some p => Except.ok p

/-- `MAX_REASONABLE_LAMPORTS` from `validate_lamports`. -/
def MAX_REASONABLE_LAMPORTS : Nat := 500000000 * 1000000000

/-- `validate_lamports` from src/src/utils/transfer.rs. -/
def validate_lamports (lamports : Nat) : Except ErrorResponse Unit :=
  if lamports = 0 then
    Except.error (ErrorResponse.new "Amount must be greater than 0 lamports")
  else if lamports > MAX_REASONABLE_LAMPORTS then
    Except.error (ErrorResponse.new "Amount exceeds maximum reasonable transfer")
  else
    Except.ok ()

/-- `send_sol` from src/src/utils/transfer.rs (the request field named
`from` in Rust is `from_addr` here and `to` is `to_addr`, both being
reserved words in Lean`s syntax). -/
def send_sol (request : SendSolRequest) :
    Except ErrorResponse (SuccessResponse SendSolResponse) :=
  if request.from_addr.isEmpty ∨ request.to_addr.isEmpty then
    Except.error (ErrorResponse.new "Missing required fields")
  else
  match validate_pubkey request.from_addr "sender address" with
  | Except.error e => Except.error e
  | Except.ok from_pubkey =>
  match validate_pubkey request.to_addr "recipient address" with
  | Except.error e => Except.error e
  | Except.ok to_pubkey =>
  match validate_lamports request.lamports with
  | Except.error e => Except.error e
  | Except.ok _ =>
  if from_pubkey = to_pubkey then
    Except.error
      (ErrorResponse.new "Sender and recipient addresses cannot be the same")
  else
  let instruction := systemInstructionTransfer from_pubkey to_pubkey
    request.lamports
  let accounts := [AccountMeta.new from_pubkey true,
                   AccountMeta.new to_pubkey false]
  Except.ok (SuccessResponse.new
    { program_id := bs58Encode systemProgramId.bytes
      accounts := formatAccounts accounts
      instruction_data := base64Encode instruction.data })

end Transfer

/-! ## Result-shape predicates and validator characterizations -/

/-- The result is the error envelope: `{success: false, error: message}`. -/
def returnsErrorEnvelope {T : Type} (x : Except ErrorResponse (SuccessResponse T)) : Prop :=
  ∃ e, x = Except.error e ∧ e.success = false

/-- The result is the success envelope: `{success: true, data: payload}`. -/
def returnsSuccessEnvelope {T : Type} (x : Except ErrorResponse (SuccessResponse T)) : Prop :=
  ∃ s, x = Except.ok s ∧ s.success = true

/-- Boolean discriminator for handler results. -/
def resultIsOk {E A : Type} : Except E A → Bool
  | Except.ok _ => true
  | Except.error _ => false

/-- Every `success` flag in the result is as the envelope shape dictates. -/
def envFlagsOk {T : Type} : Except ErrorResponse (SuccessResponse T) → Prop
  | Except.ok s => s.success = true
  | Except.error e => e.success = false

/-- The composition `sign_message` performs on its secret field:
base58-decode then `Keypair::from_bytes`. -/
def keypairOfBase58 (s : String) : Option Keypair :=
  (base58Decode s).bind Keypair.fromBytes

deriving instance DecidableEq for Except

theorem envFlagsOk_err {T : Type} {x : Except ErrorResponse (SuccessResponse T)}
    (h : envFlagsOk x) (hx : resultIsOk x = false) : returnsErrorEnvelope x := by
  cases x with
  | ok s => simp [resultIsOk] at hx
  | error e => exact ⟨e, rfl, h⟩

theorem envFlagsOk_ok {T : Type} {x : Except ErrorResponse (SuccessResponse T)}
    (h : envFlagsOk x) (hx : resultIsOk x = true) : returnsSuccessEnvelope x := by
  cases x with
  | ok s => exact ⟨s, rfl, h⟩
  | error e => simp [resultIsOk] at hx

theorem Token.validate_pubkey_ok_iff (key f : String) (p : Pubkey) :
    Token.validate_pubkey key f = Except.ok p ↔ pubkeyOfBase58 key = some p := by
  unfold pubkeyOfBase58
  cases hd : base58Decode key with
  | none => simp [Token.validate_pubkey, hd]
  | some bytes =>
    cases ht : Pubkey.tryFrom bytes with
    | none => simp [Token.validate_pubkey, hd, ht]
    | some q => simp [Token.validate_pubkey, hd, ht]

theorem Token.validate_pubkey_err {key f : String} {e : ErrorResponse}
    (h : Token.validate_pubkey key f = Except.error e) :
    pubkeyOfBase58 key = none ∧ e.success = false := by
  unfold pubkeyOfBase58
  cases hd : base58Decode key with
  | none =>
    simp [Token.validate_pubkey, hd] at h
    simp [← h, ErrorResponse.new]
  | some bytes =>
    cases ht : Pubkey.tryFrom bytes with
    | none =>
      simp [Token.validate_pubkey, hd, ht] at h
      simp [← h, ErrorResponse.new, ht]
    | some q =>
      simp [Token.validate_pubkey, hd, ht] at h

theorem Transfer.validate_pubkey_eq_token :
    @Transfer.validate_pubkey = @Token.validate_pubkey := rfl

theorem Message.validate_pubkey_plain_ok_iff (key : String) (p : Pubkey) :
    Message.validate_pubkey key = Except.ok p ↔ pubkeyOfBase58 key = some p := by
  unfold pubkeyOfBase58
  cases hd : base58Decode key with
  | none => simp [Message.validate_pubkey, hd]
  | some bytes =>
    cases ht : Pubkey.tryFrom bytes with
    | none => simp [Message.validate_pubkey, hd, ht]
    | some q => simp [Message.validate_pubkey, hd, ht]

theorem Message.validate_pubkey_plain_err {key : String} {e : ErrorResponse}
    (h : Message.validate_pubkey key = Except.error e) :
    pubkeyOfBase58 key = none ∧ e.success = false := by
  unfold pubkeyOfBase58
  cases hd : base58Decode key with
  | none =>
    simp [Message.validate_pubkey, hd] at h
    simp [← h, ErrorResponse.new]
  | some bytes =>
    cases ht : Pubkey.tryFrom bytes with
    | none =>
      simp [Message.validate_pubkey, hd, ht] at h
      simp [← h, ErrorResponse.new, ht]
    | some q =>
      simp [Message.validate_pubkey, hd, ht] at h

theorem Message.validate_secret_key_ok_iff (s : String) (k : Keypair) :
    Message.validate_secret_key s = Except.ok k ↔ keypairOfBase58 s = some k := by
  unfold keypairOfBase58
  cases hd : base58Decode s with
  | none => simp [Message.validate_secret_key, hd]
  | some bytes =>
    cases ht : Keypair.fromBytes bytes with
    | none => simp [Message.validate_secret_key, hd, ht]
    | some q => simp [Message.validate_secret_key, hd, ht]

theorem Message.validate_secret_key_err {s : String} {e : ErrorResponse}
    (h : Message.validate_secret_key s = Except.error e) :
    keypairOfBase58 s = none ∧ e.success = false := by
  unfold keypairOfBase58
  cases hd : base58Decode s with
  | none =>
    simp [Message.validate_secret_key, hd] at h
    simp [← h, ErrorResponse.new]
  | some bytes =>
    cases ht : Keypair.fromBytes bytes with
    | none =>
      simp [Message.validate_secret_key, hd, ht] at h
      simp [← h, ErrorResponse.new, ht]
    | some q =>
      simp [Message.validate_secret_key, hd, ht] at h

theorem Message.validate_signature_ok_iff (s : String) (sg : Signature) :
    Message.validate_signature s = Except.ok sg ↔ signatureOfBase64 s = some sg := by
  unfold signatureOfBase64
  cases hd : base64Decode s with
  | none => simp [Message.validate_signature, hd]
  | some bytes =>
    cases ht : Signature.tryFrom bytes with
    | none => simp [Message.validate_signature, hd, ht]
    | some q => simp [Message.validate_signature, hd, ht]

theorem Message.validate_signature_err {s : String} {e : ErrorResponse}
    (h : Message.validate_signature s = Except.error e) :
    signatureOfBase64 s = none ∧ e.success = false := by
  unfold signatureOfBase64
  cases hd : base64Decode s with
  | none =>
    simp [Message.validate_signature, hd] at h
    simp [← h, ErrorResponse.new]
  | some bytes =>
    cases ht : Signature.tryFrom bytes with
    | none =>
      simp [Message.validate_signature, hd, ht] at h
      simp [← h, ErrorResponse.new, ht]
    | some q =>
      simp [Message.validate_signature, hd, ht] at h

theorem Message.validate_message_ok_iff (m : String) :
    Message.validate_message m = Except.ok () ↔ ¬ m.isEmpty := by
  unfold Message.validate_message
  by_cases h : m.isEmpty <;> simp [h]

theorem Message.validate_message_err {m : String} {e : ErrorResponse}
    (h : Message.validate_message m = Except.error e) :
    m.isEmpty ∧ e.success = false := by
  unfold Message.validate_message at h
  by_cases hm : m.isEmpty
  · rw [if_pos hm] at h
    injection h with h
    subst h
    exact ⟨hm, rfl⟩
  · rw [if_neg hm] at h
    exact Except.noConfusion h

theorem Token.validate_decimals_ok_iff (d : Nat) :
    Token.validate_decimals d = Except.ok () ↔ d ≤ 9 := by
  unfold Token.validate_decimals
  by_cases h : d > 9
  · simp [h]
  · simp [h]
    omega

theorem Token.validate_decimals_err {d : Nat} {e : ErrorResponse}
    (h : Token.validate_decimals d = Except.error e) :
    9 < d ∧ e = ErrorResponse.new "Decimals must be between 0 and 9" := by
  unfold Token.validate_decimals at h
  by_cases hd : d > 9
  · rw [if_pos hd] at h
    injection h with h
    exact ⟨hd, h.symm⟩
  · rw [if_neg hd] at h
    exact Except.noConfusion h

theorem Token.validate_amount_ok_iff (a : Nat) :
    Token.validate_amount a = Except.ok () ↔ a ≠ 0 := by
  unfold Token.validate_amount
  by_cases h : a = 0 <;> simp [h]

theorem Token.validate_amount_err {a : Nat} {e : ErrorResponse}
    (h : Token.validate_amount a = Except.error e) :
    a = 0 ∧ e.success = false := by
  unfold Token.validate_amount at h
  by_cases ha : a = 0
  · rw [if_pos ha] at h
    injection h with h
    subst h
    exact ⟨ha, rfl⟩
  · rw [if_neg ha] at h
    exact Except.noConfusion h

theorem Transfer.validate_lamports_ok_iff (l : Nat) :
    Transfer.validate_lamports l = Except.ok () ↔
      l ≠ 0 ∧ l ≤ Transfer.MAX_REASONABLE_LAMPORTS := by
  unfold Transfer.validate_lamports
  by_cases h0 : l = 0
  · simp [h0]
  · by_cases hm : l > Transfer.MAX_REASONABLE_LAMPORTS
    · simp [h0, hm]
    · simp [h0, hm]
      omega

theorem Transfer.validate_lamports_err {l : Nat} {e : ErrorResponse}
    (h : Transfer.validate_lamports l = Except.error e) :
    (l = 0 ∨ l > Transfer.MAX_REASONABLE_LAMPORTS) ∧ e.success = false := by
  unfold Transfer.validate_lamports at h
  by_cases h0 : l = 0
  · rw [if_pos h0] at h
    injection h with h
    subst h
    exact ⟨Or.inl h0, rfl⟩
  · rw [if_neg h0] at h
    by_cases hm : l > Transfer.MAX_REASONABLE_LAMPORTS
    · rw [if_pos hm] at h
      injection h with h
      subst h
      exact ⟨Or.inr hm, rfl⟩
    · rw [if_neg hm] at h
      exact Except.noConfusion h

/-! ## Handler-level lemmas -/

theorem pubkeyOfBase58_nil : pubkeyOfBase58 "" = none := by decide

theorem keypairOfBase58_nil : keypairOfBase58 "" = none := by decide

theorem signatureOfBase64_nil : signatureOfBase64 "" = none := by decide

theorem generate_keypair_flags (entropy : List Nat) :
    envFlagsOk (generate_keypair entropy) := by
  simp [generate_keypair, envFlagsOk, SuccessResponse.new]

theorem Token.create_token_flags (r : Token.CreateTokenRequest) :
    envFlagsOk (Token.create_token r) := by
  cases h1 : Token.validate_pubkey r.mint_authority "mint_authority" with
  | error e =>
    simp [Token.create_token, h1, envFlagsOk, (Token.validate_pubkey_err h1).2]
  | ok ma =>
    cases h2 : Token.validate_pubkey r.mint "mint" with
    | error e =>
      simp [Token.create_token, h1, h2, envFlagsOk, (Token.validate_pubkey_err h2).2]
    | ok m =>
      cases h3 : Token.validate_decimals r.decimals with
      | error e =>
        simp [Token.create_token, h1, h2, h3, envFlagsOk,
          (Token.validate_decimals_err h3).2, ErrorResponse.new]
      | ok u =>
        simp [Token.create_token, h1, h2, h3, envFlagsOk,
          tokenInstructionInitializeMint, Except.mapError, SuccessResponse.new]

theorem Token.create_token_isOk_iff (r : Token.CreateTokenRequest) :
    resultIsOk (Token.create_token r) = true ↔
      (∃ a, pubkeyOfBase58 r.mint_authority = some a) ∧
      (∃ m, pubkeyOfBase58 r.mint = some m) ∧ r.decimals ≤ 9 := by
  cases h1 : Token.validate_pubkey r.mint_authority "mint_authority" with
  | error e =>
    apply iff_of_false
    · simp [Token.create_token, h1, resultIsOk]
    · rintro ⟨⟨a, ha⟩, -, -⟩
      rw [(Token.validate_pubkey_err h1).1] at ha
      exact Option.noConfusion ha
  | ok ma =>
    cases h2 : Token.validate_pubkey r.mint "mint" with
    | error e =>
      apply iff_of_false
      · simp [Token.create_token, h1, h2, resultIsOk]
      · rintro ⟨-, ⟨m, hm⟩, -⟩
        rw [(Token.validate_pubkey_err h2).1] at hm
        exact Option.noConfusion hm
    | ok m =>
      cases h3 : Token.validate_decimals r.decimals with
      | error e =>
        apply iff_of_false
        · simp [Token.create_token, h1, h2, h3, resultIsOk]
        · rintro ⟨-, -, hd⟩
          have h9 := (Token.validate_decimals_err h3).1
          omega
      | ok u =>
        apply iff_of_true
        · simp [Token.create_token, h1, h2, h3, resultIsOk,
            tokenInstructionInitializeMint, Except.mapError]
        · exact ⟨⟨ma, (Token.validate_pubkey_ok_iff _ _ _).mp h1⟩,
            ⟨m, (Token.validate_pubkey_ok_iff _ _ _).mp h2⟩,
            (Token.validate_decimals_ok_iff _).mp h3⟩

theorem Token.validate_decimals_err_intro {d : Nat} (h : 9 < d) :
    Token.validate_decimals d =
      Except.error (ErrorResponse.new "Decimals must be between 0 and 9") := by
  unfold Token.validate_decimals
  rw [if_pos h]

theorem Token.create_token_decimals_err (r : Token.CreateTokenRequest)
    (ma m : Pubkey) (h1 : pubkeyOfBase58 r.mint_authority = some ma)
    (h2 : pubkeyOfBase58 r.mint = some m) (h9 : 9 < r.decimals) :
    Token.create_token r =
      Except.error (ErrorResponse.new "Decimals must be between 0 and 9") := by
  have v1 := (Token.validate_pubkey_ok_iff r.mint_authority "mint_authority" ma).mpr h1
  have v2 := (Token.validate_pubkey_ok_iff r.mint "mint" m).mpr h2
  simp [Token.create_token, v1, v2, Token.validate_decimals_err_intro h9]

theorem Token.mint_token_flags (r : Token.MintTokenRequest) :
    envFlagsOk (Token.mint_token r) := by
  cases h1 : Token.validate_pubkey r.mint_authority "mintAuthority" with
  | error e =>
    simp [Token.mint_token, h1, envFlagsOk, (Token.validate_pubkey_err h1).2]
  | ok ma =>
    cases h2 : Token.validate_pubkey r.mint "mint" with
    | error e =>
      simp [Token.mint_token, h1, h2, envFlagsOk, (Token.validate_pubkey_err h2).2]
    | ok m =>
      cases h3 : Token.validate_decimals r.decimals with
      | error e =>
        simp [Token.mint_token, h1, h2, h3, envFlagsOk,
          (Token.validate_decimals_err h3).2, ErrorResponse.new]
      | ok u =>
        simp [Token.mint_token, h1, h2, h3, envFlagsOk, Token.mintTokenInstructionOf,
          tokenInstructionMintTo, Except.mapError, SuccessResponse.new]

theorem Token.mint_token_isOk_iff (r : Token.MintTokenRequest) :
    resultIsOk (Token.mint_token r) = true ↔
      (∃ a, pubkeyOfBase58 r.mint_authority = some a) ∧
      (∃ m, pubkeyOfBase58 r.mint = some m) ∧ r.decimals ≤ 9 := by
  cases h1 : Token.validate_pubkey r.mint_authority "mintAuthority" with
  | error e =>
    apply iff_of_false
    · simp [Token.mint_token, h1, resultIsOk]
    · rintro ⟨⟨a, ha⟩, -, -⟩
      rw [(Token.validate_pubkey_err h1).1] at ha
      exact Option.noConfusion ha
  | ok ma =>
    cases h2 : Token.validate_pubkey r.mint "mint" with
    | error e =>
      apply iff_of_false
      · simp [Token.mint_token, h1, h2, resultIsOk]
      · rintro ⟨-, ⟨m, hm⟩, -⟩
        rw [(Token.validate_pubkey_err h2).1] at hm
        exact Option.noConfusion hm
    | ok m =>
      cases h3 : Token.validate_decimals r.decimals with
      | error e =>
        apply iff_of_false
        · simp [Token.mint_token, h1, h2, h3, resultIsOk]
        · rintro ⟨-, -, hd⟩
          have h9 := (Token.validate_decimals_err h3).1
          omega
      | ok u =>
        apply iff_of_true
        · simp [Token.mint_token, h1, h2, h3, resultIsOk, Token.mintTokenInstructionOf,
            tokenInstructionMintTo, Except.mapError]
        · exact ⟨⟨ma, (Token.validate_pubkey_ok_iff _ _ _).mp h1⟩,
            ⟨m, (Token.validate_pubkey_ok_iff _ _ _).mp h2⟩,
            (Token.validate_decimals_ok_iff _).mp h3⟩

theorem Token.mint_token_decimals_err (r : Token.MintTokenRequest)
    (ma m : Pubkey) (h1 : pubkeyOfBase58 r.mint_authority = some ma)
    (h2 : pubkeyOfBase58 r.mint = some m) (h9 : 9 < r.decimals) :
    Token.mint_token r =
      Except.error (ErrorResponse.new "Decimals must be between 0 and 9") := by
  have v1 := (Token.validate_pubkey_ok_iff r.mint_authority "mintAuthority" ma).mpr h1
  have v2 := (Token.validate_pubkey_ok_iff r.mint "mint" m).mpr h2
  simp [Token.mint_token, v1, v2, Token.validate_decimals_err_intro h9]

theorem Token.mint_token_data_of_ok {r : Token.MintTokenRequest}
    {resp : SuccessResponse Token.MintTokenResponse}
    (h : Token.mint_token r = Except.ok resp) :
    resp.data.instruction_data = base64Encode (7 :: natToLE8 1000000000) := by
  cases h1 : Token.validate_pubkey r.mint_authority "mintAuthority" with
  | error e => simp [Token.mint_token, h1] at h
  | ok ma =>
    cases h2 : Token.validate_pubkey r.mint "mint" with
    | error e => simp [Token.mint_token, h1, h2] at h
    | ok m =>
      cases h3 : Token.validate_decimals r.decimals with
      | error e => simp [Token.mint_token, h1, h2, h3] at h
      | ok u =>
        simp [Token.mint_token, h1, h2, h3, Token.mintTokenInstructionOf,
          tokenInstructionMintTo, Except.mapError] at h
        simp [← h, SuccessResponse.new]

theorem pubkeyOfBase58_of_isEmpty {s : String} (h : s.isEmpty = true) :
    pubkeyOfBase58 s = none := by
  rw [(String.isEmpty_iff s).mp h]
  exact pubkeyOfBase58_nil

theorem keypairOfBase58_of_isEmpty {s : String} (h : s.isEmpty = true) :
    keypairOfBase58 s = none := by
  rw [(String.isEmpty_iff s).mp h]
  exact keypairOfBase58_nil

theorem signatureOfBase64_of_isEmpty {s : String} (h : s.isEmpty = true) :
    signatureOfBase64 s = none := by
  rw [(String.isEmpty_iff s).mp h]
  exact signatureOfBase64_nil

theorem Token.send_token_flags (r : Token.SendTokenRequest) :
    envFlagsOk (Token.send_token r) := by
  by_cases he : (r.destination.isEmpty ∨ r.mint.isEmpty ∨ r.owner.isEmpty)
  · simp [Token.send_token, he, envFlagsOk, ErrorResponse.new]
  · cases h1 : Token.validate_pubkey r.destination "destination address" with
    | error e =>
      simp [Token.send_token, he, h1, envFlagsOk, (Token.validate_pubkey_err h1).2]
    | ok d =>
      cases h2 : Token.validate_pubkey r.mint "mint address" with
      | error e =>
        simp [Token.send_token, he, h1, h2, envFlagsOk, (Token.validate_pubkey_err h2).2]
      | ok m =>
        cases h3 : Token.validate_pubkey r.owner "owner address" with
        | error e =>
          simp [Token.send_token, he, h1, h2, h3, envFlagsOk,
            (Token.validate_pubkey_err h3).2]
        | ok o =>
          cases h4 : Token.validate_amount r.amount with
          | error e =>
            simp [Token.send_token, he, h1, h2, h3, h4, envFlagsOk,
              (Token.validate_amount_err h4).2]
          | ok u =>
            by_cases h5 : o = d
            · simp [Token.send_token, he, h1, h2, h3, h4, h5, envFlagsOk,
                ErrorResponse.new]
            · simp [Token.send_token, he, h1, h2, h3, h4, h5, envFlagsOk,
                tokenInstructionTransferChecked, Except.mapError, SuccessResponse.new]

theorem Token.send_token_isOk_iff (r : Token.SendTokenRequest) :
    resultIsOk (Token.send_token r) = true ↔
      ∃ d m o, pubkeyOfBase58 r.destination = some d ∧
        pubkeyOfBase58 r.mint = some m ∧ pubkeyOfBase58 r.owner = some o ∧
        r.amount ≠ 0 ∧ o ≠ d := by
  by_cases he : (r.destination.isEmpty ∨ r.mint.isEmpty ∨ r.owner.isEmpty)
  · apply iff_of_false
    · simp [Token.send_token, he, resultIsOk]
    · rintro ⟨d, m, o, hd, hm, ho, -, -⟩
      rcases he with h | h | h
      · rw [pubkeyOfBase58_of_isEmpty h] at hd
        exact Option.noConfusion hd
      · rw [pubkeyOfBase58_of_isEmpty h] at hm
        exact Option.noConfusion hm
      · rw [pubkeyOfBase58_of_isEmpty h] at ho
        exact Option.noConfusion ho
  · cases h1 : Token.validate_pubkey r.destination "destination address" with
    | error e =>
      apply iff_of_false
      · simp [Token.send_token, he, h1, resultIsOk]
      · rintro ⟨d, m, o, hd, -, -, -, -⟩
        rw [(Token.validate_pubkey_err h1).1] at hd
        exact Option.noConfusion hd
    | ok d =>
      cases h2 : Token.validate_pubkey r.mint "mint address" with
      | error e =>
        apply iff_of_false
        · simp [Token.send_token, he, h1, h2, resultIsOk]
        · rintro ⟨d, m, o, -, hm, -, -, -⟩
          rw [(Token.validate_pubkey_err h2).1] at hm
          exact Option.noConfusion hm
      | ok m =>
        cases h3 : Token.validate_pubkey r.owner "owner address" with
        | error e =>
          apply iff_of_false
          · simp [Token.send_token, he, h1, h2, h3, resultIsOk]
          · rintro ⟨d, m, o, -, -, ho, -, -⟩
            rw [(Token.validate_pubkey_err h3).1] at ho
            exact Option.noConfusion ho
        | ok o =>
          cases h4 : Token.validate_amount r.amount with
          | error e =>
            apply iff_of_false
            · simp [Token.send_token, he, h1, h2, h3, h4, resultIsOk]
            · rintro ⟨d, m, o, -, -, -, ha, -⟩
              exact ha (Token.validate_amount_err h4).1
          | ok u =>
            have hd := (Token.validate_pubkey_ok_iff _ _ _).mp h1
            have hm := (Token.validate_pubkey_ok_iff _ _ _).mp h2
            have ho := (Token.validate_pubkey_ok_iff _ _ _).mp h3
            by_cases h5 : o = d
            · apply iff_of_false
              · simp [Token.send_token, he, h1, h2, h3, h4, h5, resultIsOk]
              · rintro ⟨d', m', o', hd', -, ho', -, hne⟩
                rw [hd] at hd'
                rw [ho] at ho'
                injection hd' with hd'
                injection ho' with ho'
                subst hd'
                subst ho'
                exact hne h5
            · apply iff_of_true
              · simp [Token.send_token, he, h1, h2, h3, h4, h5, resultIsOk,
                  tokenInstructionTransferChecked, Except.mapError]
              · exact ⟨d, m, o, hd, hm, ho, (Token.validate_amount_ok_iff _).mp h4, h5⟩

theorem Token.send_token_data_of_ok {r : Token.SendTokenRequest}
    {resp : SuccessResponse Token.SendTokenResponse}
    (h : Token.send_token r = Except.ok resp) :
    resp.data.instruction_data = base64Encode (12 :: natToLE8 r.amount ++ [9]) := by
  by_cases he : (r.destination.isEmpty ∨ r.mint.isEmpty ∨ r.owner.isEmpty)
  · simp [Token.send_token, he] at h
  · cases h1 : Token.validate_pubkey r.destination "destination address" with
    | error e => simp [Token.send_token, he, h1] at h
    | ok d =>
      cases h2 : Token.validate_pubkey r.mint "mint address" with
      | error e => simp [Token.send_token, he, h1, h2] at h
      | ok m =>
        cases h3 : Token.validate_pubkey r.owner "owner address" with
        | error e => simp [Token.send_token, he, h1, h2, h3] at h
        | ok o =>
          cases h4 : Token.validate_amount r.amount with
          | error e => simp [Token.send_token, he, h1, h2, h3, h4] at h
          | ok u =>
            by_cases h5 : o = d
            · simp [Token.send_token, he, h1, h2, h3, h4, h5] at h
            · simp [Token.send_token, he, h1, h2, h3, h4, h5,
                tokenInstructionTransferChecked, Except.mapError] at h
              simp [← h, SuccessResponse.new]

theorem Transfer.send_sol_flags (r : Transfer.SendSolRequest) :
    envFlagsOk (Transfer.send_sol r) := by
  by_cases he : (r.from_addr.isEmpty ∨ r.to_addr.isEmpty)
  · simp [Transfer.send_sol, he, envFlagsOk, ErrorResponse.new]
  · cases h1 : Transfer.validate_pubkey r.from_addr "sender address" with
    | error e =>
      have h1' : Token.validate_pubkey r.from_addr "sender address" = Except.error e := h1
      simp [Transfer.send_sol, he, h1, envFlagsOk, (Token.validate_pubkey_err h1').2]
    | ok p =>
      cases h2 : Transfer.validate_pubkey r.to_addr "recipient address" with
      | error e =>
        have h2' : Token.validate_pubkey r.to_addr "recipient address" = Except.error e := h2
        simp [Transfer.send_sol, he, h1, h2, envFlagsOk, (Token.validate_pubkey_err h2').2]
      | ok q =>
        cases h3 : Transfer.validate_lamports r.lamports with
        | error e =>
          simp [Transfer.send_sol, he, h1, h2, h3, envFlagsOk,
            (Transfer.validate_lamports_err h3).2]
        | ok u =>
          by_cases h4 : p = q
          · simp [Transfer.send_sol, he, h1, h2, h3, h4, envFlagsOk, ErrorResponse.new]
          · simp [Transfer.send_sol, he, h1, h2, h3, h4, envFlagsOk,
              SuccessResponse.new]

theorem Transfer.send_sol_isOk_iff (r : Transfer.SendSolRequest) :
    resultIsOk (Transfer.send_sol r) = true ↔
      ∃ p q, pubkeyOfBase58 r.from_addr = some p ∧
        pubkeyOfBase58 r.to_addr = some q ∧ r.lamports ≠ 0 ∧
        r.lamports ≤ Transfer.MAX_REASONABLE_LAMPORTS ∧ p ≠ q := by
  by_cases he : (r.from_addr.isEmpty ∨ r.to_addr.isEmpty)
  · apply iff_of_false
    · simp [Transfer.send_sol, he, resultIsOk]
    · rintro ⟨p, q, hp, hq, -, -, -⟩
      rcases he with h | h
      · rw [pubkeyOfBase58_of_isEmpty h] at hp
        exact Option.noConfusion hp
      · rw [pubkeyOfBase58_of_isEmpty h] at hq
        exact Option.noConfusion hq
  · cases h1 : Transfer.validate_pubkey r.from_addr "sender address" with
    | error e =>
      have h1' : Token.validate_pubkey r.from_addr "sender address" = Except.error e := h1
      apply iff_of_false
      · simp [Transfer.send_sol, he, h1, resultIsOk]
      · rintro ⟨p, q, hp, -, -, -, -⟩
        rw [(Token.validate_pubkey_err h1').1] at hp
        exact Option.noConfusion hp
    | ok p =>
      cases h2 : Transfer.validate_pubkey r.to_addr "recipient address" with
      | error e =>
        have h2' : Token.validate_pubkey r.to_addr "recipient address" = Except.error e := h2
        apply iff_of_false
        · simp [Transfer.send_sol, he, h1, h2, resultIsOk]
        · rintro ⟨p, q, -, hq, -, -, -⟩
          rw [(Token.validate_pubkey_err h2').1] at hq
          exact Option.noConfusion hq
      | ok q =>
        have hp : pubkeyOfBase58 r.from_addr = some p :=
          (Token.validate_pubkey_ok_iff _ _ _).mp h1
        have hq : pubkeyOfBase58 r.to_addr = some q :=
          (Token.validate_pubkey_ok_iff _ _ _).mp h2
        cases h3 : Transfer.validate_lamports r.lamports with
        | error e =>
          apply iff_of_false
          · simp [Transfer.send_sol, he, h1, h2, h3, resultIsOk]
          · rintro ⟨p', q', -, -, hl0, hlm, -⟩
            rcases (Transfer.validate_lamports_err h3).1 with h | h
            · exact hl0 h
            · omega
        | ok u =>
          by_cases h4 : p = q
          · apply iff_of_false
            · simp [Transfer.send_sol, he, h1, h2, h3, h4, resultIsOk]
            · rintro ⟨p', q', hp', hq', -, -, hne⟩
              rw [hp] at hp'
              rw [hq] at hq'
              injection hp' with hp'
              injection hq' with hq'
              subst hp'
              subst hq'
              exact hne h4
          · apply iff_of_true
            · simp [Transfer.send_sol, he, h1, h2, h3, h4, resultIsOk]
            · have hl := (Transfer.validate_lamports_ok_iff _).mp h3
              exact ⟨p, q, hp, hq, hl.1, hl.2, h4⟩

theorem Message.sign_message_flags (r : Message.SignMessageRequest) :
    envFlagsOk (Message.sign_message r) := by
  by_cases he : (r.message.isEmpty ∨ r.secret.isEmpty)
  · simp [Message.sign_message, he, envFlagsOk, ErrorResponse.new]
  · cases h1 : Message.validate_message r.message with
    | error e =>
      simp [Message.sign_message, he, h1, envFlagsOk, (Message.validate_message_err h1).2]
    | ok u =>
      cases h2 : Message.validate_secret_key r.secret with
      | error e =>
        simp [Message.sign_message, he, h1, h2, envFlagsOk,
          (Message.validate_secret_key_err h2).2]
      | ok k =>
        simp [Message.sign_message, he, h1, h2, envFlagsOk, SuccessResponse.new]

theorem Message.sign_message_isOk_iff (r : Message.SignMessageRequest) :
    resultIsOk (Message.sign_message r) = true ↔
      r.message.isEmpty = false ∧ ∃ k, keypairOfBase58 r.secret = some k := by
  by_cases he : (r.message.isEmpty ∨ r.secret.isEmpty)
  · apply iff_of_false
    · simp [Message.sign_message, he, resultIsOk]
    · rintro ⟨hm, ⟨k, hk⟩⟩
      rcases he with h | h
      · rw [h] at hm
        exact Bool.noConfusion hm
      · rw [keypairOfBase58_of_isEmpty h] at hk
        exact Option.noConfusion hk
  · cases h1 : Message.validate_message r.message with
    | error e =>
      apply iff_of_false
      · simp [Message.sign_message, he, h1, resultIsOk]
      · rintro ⟨hm, -⟩
        rw [(Message.validate_message_err h1).1] at hm
        exact Bool.noConfusion hm
    | ok u =>
      cases h2 : Message.validate_secret_key r.secret with
      | error e =>
        apply iff_of_false
        · simp [Message.sign_message, he, h1, h2, resultIsOk]
        · rintro ⟨-, ⟨k, hk⟩⟩
          rw [(Message.validate_secret_key_err h2).1] at hk
          exact Option.noConfusion hk
      | ok k =>
        apply iff_of_true
        · simp [Message.sign_message, he, h1, h2, resultIsOk]
        · refine ⟨?_, ⟨k, (Message.validate_secret_key_ok_iff _ _).mp h2⟩⟩
          cases hb : r.message.isEmpty with
          | false => rfl
          | true =>
            exfalso
            simp [Message.validate_message, hb] at h1

theorem Message.sign_message_echo {r : Message.SignMessageRequest}
    {resp : SuccessResponse Message.SignMessageResponse}
    (h : Message.sign_message r = Except.ok resp) :
    resp.data.message = r.message := by
  by_cases he : (r.message.isEmpty ∨ r.secret.isEmpty)
  · simp [Message.sign_message, he] at h
  · cases h1 : Message.validate_message r.message with
    | error e => simp [Message.sign_message, he, h1] at h
    | ok u =>
      cases h2 : Message.validate_secret_key r.secret with
      | error e => simp [Message.sign_message, he, h1, h2] at h
      | ok k =>
        simp [Message.sign_message, he, h1, h2] at h
        simp [← h, SuccessResponse.new]

theorem Message.verify_message_flags (r : Message.VerifyMessageRequest) :
    envFlagsOk (Message.verify_message r) := by
  by_cases he : (r.message.isEmpty ∨ r.signature.isEmpty ∨ r.pubkey.isEmpty)
  · simp [Message.verify_message, he, envFlagsOk, ErrorResponse.new]
  · cases h1 : Message.validate_message r.message with
    | error e =>
      simp [Message.verify_message, he, h1, envFlagsOk, (Message.validate_message_err h1).2]
    | ok u =>
      cases h2 : Message.validate_signature r.signature with
      | error e =>
        simp [Message.verify_message, he, h1, h2, envFlagsOk,
          (Message.validate_signature_err h2).2]
      | ok sg =>
        cases h3 : Message.validate_pubkey r.pubkey with
        | error e =>
          simp [Message.verify_message, he, h1, h2, h3, envFlagsOk,
            (Message.validate_pubkey_plain_err h3).2]
        | ok p =>
          simp [Message.verify_message, he, h1, h2, h3, envFlagsOk, SuccessResponse.new]

theorem Message.verify_message_isOk_iff (r : Message.VerifyMessageRequest) :
    resultIsOk (Message.verify_message r) = true ↔
      r.message.isEmpty = false ∧ (∃ sg, signatureOfBase64 r.signature = some sg) ∧
      (∃ p, pubkeyOfBase58 r.pubkey = some p) := by
  by_cases he : (r.message.isEmpty ∨ r.signature.isEmpty ∨ r.pubkey.isEmpty)
  · apply iff_of_false
    · simp [Message.verify_message, he, resultIsOk]
    · rintro ⟨hm, ⟨sg, hs⟩, ⟨p, hp⟩⟩
      rcases he with h | h | h
      · rw [h] at hm
        exact Bool.noConfusion hm
      · rw [signatureOfBase64_of_isEmpty h] at hs
        exact Option.noConfusion hs
      · rw [pubkeyOfBase58_of_isEmpty h] at hp
        exact Option.noConfusion hp
  · cases h1 : Message.validate_message r.message with
    | error e =>
      apply iff_of_false
      · simp [Message.verify_message, he, h1, resultIsOk]
      · rintro ⟨hm, -, -⟩
        rw [(Message.validate_message_err h1).1] at hm
        exact Bool.noConfusion hm
    | ok u =>
      cases h2 : Message.validate_signature r.signature with
      | error e =>
        apply iff_of_false
        · simp [Message.verify_message, he, h1, h2, resultIsOk]
        · rintro ⟨-, ⟨sg, hs⟩, -⟩
          rw [(Message.validate_signature_err h2).1] at hs
          exact Option.noConfusion hs
      | ok sg =>
        cases h3 : Message.validate_pubkey r.pubkey with
        | error e =>
          apply iff_of_false
          · simp [Message.verify_message, he, h1, h2, h3, resultIsOk]
          · rintro ⟨-, -, ⟨p, hp⟩⟩
            rw [(Message.validate_pubkey_plain_err h3).1] at hp
            exact Option.noConfusion hp
        | ok p =>
          apply iff_of_true
          · simp [Message.verify_message, he, h1, h2, h3, resultIsOk]
          · refine ⟨?_, ⟨sg, (Message.validate_signature_ok_iff _ _).mp h2⟩,
              ⟨p, (Message.validate_pubkey_plain_ok_iff _ _).mp h3⟩⟩
            cases hb : r.message.isEmpty with
            | false => rfl
            | true =>
              exfalso
              simp [Message.validate_message, hb] at h1

theorem Message.verify_message_echo {r : Message.VerifyMessageRequest}
    {resp : SuccessResponse Message.VerifyMessageResponse}
    (h : Message.verify_message r = Except.ok resp) :
    resp.data.message = r.message ∧ resp.data.pubkey = r.pubkey := by
  by_cases he : (r.message.isEmpty ∨ r.signature.isEmpty ∨ r.pubkey.isEmpty)
  · simp [Message.verify_message, he] at h
  · cases h1 : Message.validate_message r.message with
    | error e => simp [Message.verify_message, he, h1] at h
    | ok u =>
      cases h2 : Message.validate_signature r.signature with
      | error e => simp [Message.verify_message, he, h1, h2] at h
      | ok sg =>
        cases h3 : Message.validate_pubkey r.pubkey with
        | error e => simp [Message.verify_message, he, h1, h2, h3] at h
        | ok p =>
          simp [Message.verify_message, he, h1, h2, h3] at h
          simp [← h, SuccessResponse.new]

/-! ## Bridging lemmas -/

theorem envelope_shape_of_flags {T : Type}
    (x : Except ErrorResponse (SuccessResponse T)) (h : envFlagsOk x) :
    returnsSuccessEnvelope x ∨ returnsErrorEnvelope x := by
  cases x with
  | ok s => exact Or.inl ⟨s, rfl, h⟩
  | error e => exact Or.inr ⟨e, rfl, h⟩

theorem returnsSuccess_isOk {T : Type}
    {x : Except ErrorResponse (SuccessResponse T)}
    (h : returnsSuccessEnvelope x) : resultIsOk x = true := by
  rcases h with ⟨s, rfl, -⟩
  rfl

theorem returnsError_of_isOk_false {T : Type}
    {x : Except ErrorResponse (SuccessResponse T)} (hf : envFlagsOk x)
    (h : resultIsOk x = false) : returnsErrorEnvelope x := by
  cases x with
  | ok s => exact Bool.noConfusion h
  | error e => exact ⟨e, rfl, hf⟩

theorem returnsSuccess_of_isOk_true {T : Type}
    {x : Except ErrorResponse (SuccessResponse T)} (hf : envFlagsOk x)
    (h : resultIsOk x = true) : returnsSuccessEnvelope x := by
  cases x with
  | ok s => exact ⟨s, rfl, hf⟩
  | error e => exact Bool.noConfusion h

/-! ## Claim theorems -/

/-- C1: For every request to every endpoint (generate_keypair, create_token,
mint_token, sign_message, verify_message, send_sol, send_token), the
handler's result is exactly one of two envelope shapes: a `SuccessResponse`
whose `success` field is `true` carrying a data payload, or an
`ErrorResponse` whose `success` field is `false` carrying an error message
string; no other shape is ever returned. -/
theorem uniform_response_envelope :
    (∀ entropy : List Nat, returnsSuccessEnvelope (generate_keypair entropy) ∨
      returnsErrorEnvelope (generate_keypair entropy)) ∧
    (∀ r : Token.CreateTokenRequest, returnsSuccessEnvelope (Token.create_token r) ∨
      returnsErrorEnvelope (Token.create_token r)) ∧
    (∀ r : Token.MintTokenRequest, returnsSuccessEnvelope (Token.mint_token r) ∨
      returnsErrorEnvelope (Token.mint_token r)) ∧
    (∀ r : Message.SignMessageRequest, returnsSuccessEnvelope (Message.sign_message r) ∨
      returnsErrorEnvelope (Message.sign_message r)) ∧
    (∀ r : Message.VerifyMessageRequest, returnsSuccessEnvelope (Message.verify_message r) ∨
      returnsErrorEnvelope (Message.verify_message r)) ∧
    (∀ r : Transfer.SendSolRequest, returnsSuccessEnvelope (Transfer.send_sol r) ∨
      returnsErrorEnvelope (Transfer.send_sol r)) ∧
    (∀ r : Token.SendTokenRequest, returnsSuccessEnvelope (Token.send_token r) ∨
      returnsErrorEnvelope (Token.send_token r)) :=
  ⟨fun e => envelope_shape_of_flags _ (generate_keypair_flags e),
   fun r => envelope_shape_of_flags _ (Token.create_token_flags r),
   fun r => envelope_shape_of_flags _ (Token.mint_token_flags r),
   fun r => envelope_shape_of_flags _ (Message.sign_message_flags r),
   fun r => envelope_shape_of_flags _ (Message.verify_message_flags r),
   fun r => envelope_shape_of_flags _ (Transfer.send_sol_flags r),
   fun r => envelope_shape_of_flags _ (Token.send_token_flags r)⟩

/-- C2: Every request whose base58-encoded field (secret, pubkey, mint,
mintAuthority, from, to, owner, destination) fails base58 decoding or does
not decode to a value of the expected key type, and every verify_message
request whose signature fails base64 decoding or is not a well-formed
signature, is answered with the error envelope, never a success envelope. -/
theorem invalid_encoding_rejected :
    (∀ r : Token.CreateTokenRequest,
      pubkeyOfBase58 r.mint_authority = none ∨ pubkeyOfBase58 r.mint = none →
      returnsErrorEnvelope (Token.create_token r)) ∧
    (∀ r : Token.MintTokenRequest,
      pubkeyOfBase58 r.mint_authority = none ∨ pubkeyOfBase58 r.mint = none →
      returnsErrorEnvelope (Token.mint_token r)) ∧
    (∀ r : Token.SendTokenRequest,
      pubkeyOfBase58 r.destination = none ∨ pubkeyOfBase58 r.mint = none ∨
        pubkeyOfBase58 r.owner = none →
      returnsErrorEnvelope (Token.send_token r)) ∧
    (∀ r : Transfer.SendSolRequest,
      pubkeyOfBase58 r.from_addr = none ∨ pubkeyOfBase58 r.to_addr = none →
      returnsErrorEnvelope (Transfer.send_sol r)) ∧
    (∀ r : Message.SignMessageRequest, keypairOfBase58 r.secret = none →
      returnsErrorEnvelope (Message.sign_message r)) ∧
    (∀ r : Message.VerifyMessageRequest,
      signatureOfBase64 r.signature = none ∨ pubkeyOfBase58 r.pubkey = none →
      returnsErrorEnvelope (Message.verify_message r)) := by
  refine ⟨fun r h => ?_, fun r h => ?_, fun r h => ?_, fun r h => ?_,
    fun r h => ?_, fun r h => ?_⟩
  · apply returnsError_of_isOk_false (Token.create_token_flags r)
    cases hb : resultIsOk (Token.create_token r) with
    | false => rfl
    | true =>
      exfalso
      rcases (Token.create_token_isOk_iff r).mp hb with ⟨⟨a, ha⟩, ⟨m, hm⟩, -⟩
      cases h with
      | inl h => rw [h] at ha; exact Option.noConfusion ha
      | inr h => rw [h] at hm; exact Option.noConfusion hm
  · apply returnsError_of_isOk_false (Token.mint_token_flags r)
    cases hb : resultIsOk (Token.mint_token r) with
    | false => rfl
    | true =>
      exfalso
      rcases (Token.mint_token_isOk_iff r).mp hb with ⟨⟨a, ha⟩, ⟨m, hm⟩, -⟩
      cases h with
      | inl h => rw [h] at ha; exact Option.noConfusion ha
      | inr h => rw [h] at hm; exact Option.noConfusion hm
  · apply returnsError_of_isOk_false (Token.send_token_flags r)
    cases hb : resultIsOk (Token.send_token r) with
    | false => rfl
    | true =>
      exfalso
      rcases (Token.send_token_isOk_iff r).mp hb with ⟨d, m, o, hd, hm, ho, -, -⟩
      rcases h with h | h | h
      · rw [h] at hd; exact Option.noConfusion hd
      · rw [h] at hm; exact Option.noConfusion hm
      · rw [h] at ho; exact Option.noConfusion ho
  · apply returnsError_of_isOk_false (Transfer.send_sol_flags r)
    cases hb : resultIsOk (Transfer.send_sol r) with
    | false => rfl
    | true =>
      exfalso
      rcases (Transfer.send_sol_isOk_iff r).mp hb with ⟨p, q, hp, hq, -, -, -⟩
      cases h with
      | inl h => rw [h] at hp; exact Option.noConfusion hp
      | inr h => rw [h] at hq; exact Option.noConfusion hq
  · apply returnsError_of_isOk_false (Message.sign_message_flags r)
    cases hb : resultIsOk (Message.sign_message r) with
    | false => rfl
    | true =>
      exfalso
      rcases (Message.sign_message_isOk_iff r).mp hb with ⟨-, ⟨k, hk⟩⟩
      rw [h] at hk
      exact Option.noConfusion hk
  · apply returnsError_of_isOk_false (Message.verify_message_flags r)
    cases hb : resultIsOk (Message.verify_message r) with
    | false => rfl
    | true =>
      exfalso
      rcases (Message.verify_message_isOk_iff r).mp hb with ⟨-, ⟨sg, hs⟩, ⟨p, hp⟩⟩
      cases h with
      | inl h => rw [h] at hs; exact Option.noConfusion hs
      | inr h => rw [h] at hp; exact Option.noConfusion hp

/-- C2 witness: concrete malformed inputs (`"!"` is not a base58 or base64
character, `"x"` decodes to fewer than 32 bytes) are rejected by every
endpoint. -/
theorem invalid_encoding_rejected_witness :
    (pubkeyOfBase58 "!" = none ∧
      returnsErrorEnvelope (Token.create_token ⟨"!", "x", 0⟩)) ∧
    (pubkeyOfBase58 "x" = none ∧
      returnsErrorEnvelope (Token.mint_token ⟨"!", "x", 0⟩)) ∧
    (returnsErrorEnvelope (Token.send_token ⟨"!", "x", "!", 1⟩)) ∧
    (returnsErrorEnvelope (Transfer.send_sol ⟨"!", "x", 1⟩)) ∧
    (keypairOfBase58 "x" = none ∧
      returnsErrorEnvelope (Message.sign_message ⟨"hi", "x"⟩)) ∧
    (signatureOfBase64 "!" = none ∧
      returnsErrorEnvelope (Message.verify_message ⟨"hi", "!", "x"⟩)) :=
  ⟨⟨by decide, invalid_encoding_rejected.1 ⟨"!", "x", 0⟩ (Or.inl (by decide))⟩,
   ⟨by decide, invalid_encoding_rejected.2.1 ⟨"!", "x", 0⟩ (Or.inr (by decide))⟩,
   invalid_encoding_rejected.2.2.1 ⟨"!", "x", "!", 1⟩ (Or.inl (by decide)),
   invalid_encoding_rejected.2.2.2.1 ⟨"!", "x", 1⟩ (Or.inl (by decide)),
   ⟨by decide, invalid_encoding_rejected.2.2.2.2.1 ⟨"hi", "x"⟩ (by decide)⟩,
   ⟨by decide, invalid_encoding_rejected.2.2.2.2.2 ⟨"hi", "!", "x"⟩
     (Or.inl (by decide))⟩⟩

/-- C3: A send_sol request whose from and to fields decode to the same
public key, and a send_token request whose owner and destination fields
decode to the same public key, are answered with the error envelope
(self-transfers rejected); when the two keys differ and all other
validations pass, the handler succeeds, so the check does not trigger. -/
theorem self_transfer_rejected :
    (∀ r : Transfer.SendSolRequest, ∀ p : Pubkey,
      pubkeyOfBase58 r.from_addr = some p → pubkeyOfBase58 r.to_addr = some p →
      returnsErrorEnvelope (Transfer.send_sol r)) ∧
    (∀ r : Transfer.SendSolRequest, ∀ p q : Pubkey,
      pubkeyOfBase58 r.from_addr = some p → pubkeyOfBase58 r.to_addr = some q →
      p ≠ q → r.lamports ≠ 0 → r.lamports ≤ Transfer.MAX_REASONABLE_LAMPORTS →
      returnsSuccessEnvelope (Transfer.send_sol r)) ∧
    (∀ r : Token.SendTokenRequest, ∀ p : Pubkey,
      pubkeyOfBase58 r.owner = some p → pubkeyOfBase58 r.destination = some p →
      returnsErrorEnvelope (Token.send_token r)) ∧
    (∀ r : Token.SendTokenRequest, ∀ d m o : Pubkey,
      pubkeyOfBase58 r.destination = some d → pubkeyOfBase58 r.mint = some m →
      pubkeyOfBase58 r.owner = some o → o ≠ d → r.amount ≠ 0 →
      returnsSuccessEnvelope (Token.send_token r)) := by
  refine ⟨fun r p hp hq => ?_, fun r p q hp hq hne hl0 hlm => ?_,
    fun r p ho hd => ?_, fun r d m o hd hm ho hne ha => ?_⟩
  · apply returnsError_of_isOk_false (Transfer.send_sol_flags r)
    cases hb : resultIsOk (Transfer.send_sol r) with
    | false => rfl
    | true =>
      exfalso
      rcases (Transfer.send_sol_isOk_iff r).mp hb with ⟨p', q', hp', hq', -, -, hne⟩
      rw [hp] at hp'
      rw [hq] at hq'
      injection hp' with hp'
      injection hq' with hq'
      subst hp'
      subst hq'
      exact hne rfl
  · exact returnsSuccess_of_isOk_true (Transfer.send_sol_flags r)
      ((Transfer.send_sol_isOk_iff r).mpr ⟨p, q, hp, hq, hl0, hlm, hne⟩)
  · apply returnsError_of_isOk_false (Token.send_token_flags r)
    cases hb : resultIsOk (Token.send_token r) with
    | false => rfl
    | true =>
      exfalso
      rcases (Token.send_token_isOk_iff r).mp hb with ⟨d', m', o', hd', -, ho', -, hne⟩
      rw [hd] at hd'
      rw [ho] at ho'
      injection hd' with hd'
      injection ho' with ho'
      subst hd'
      subst ho'
      exact hne rfl
  · exact returnsSuccess_of_isOk_true (Token.send_token_flags r)
      ((Token.send_token_isOk_iff r).mpr ⟨d, m, o, hd, hm, ho, ha, hne⟩)

/-- C3 witness: the all-zero key written as 32 ones is rejected as both
sender and recipient; distinct valid keys with valid amounts succeed. -/
theorem self_transfer_rejected_witness :
    (pubkeyOfBase58 "11111111111111111111111111111111" = some ⟨List.replicate 32 0⟩ ∧
      returnsErrorEnvelope (Transfer.send_sol ⟨"11111111111111111111111111111111", "11111111111111111111111111111111", 5⟩)) ∧
    (returnsSuccessEnvelope (Transfer.send_sol ⟨"11111111111111111111111111111111", "11111111111111111111111111111112", 5⟩)) ∧
    (returnsErrorEnvelope (Token.send_token ⟨"11111111111111111111111111111111", "11111111111111111111111111111113", "11111111111111111111111111111111", 5⟩)) ∧
    (returnsSuccessEnvelope (Token.send_token ⟨"11111111111111111111111111111111", "11111111111111111111111111111113", "11111111111111111111111111111112", 5⟩)) :=
  ⟨⟨by decide, self_transfer_rejected.1 ⟨"11111111111111111111111111111111", "11111111111111111111111111111111", 5⟩ ⟨List.replicate 32 0⟩
      (by decide) (by decide)⟩,
   self_transfer_rejected.2.1 ⟨"11111111111111111111111111111111", "11111111111111111111111111111112", 5⟩ ⟨List.replicate 32 0⟩
      ⟨List.replicate 31 0 ++ [1]⟩ (by decide) (by decide) (by decide)
      (by decide) (by decide),
   self_transfer_rejected.2.2.1 ⟨"11111111111111111111111111111111", "11111111111111111111111111111113", "11111111111111111111111111111111", 5⟩ ⟨List.replicate 32 0⟩
      (by decide) (by decide),
   self_transfer_rejected.2.2.2 ⟨"11111111111111111111111111111111", "11111111111111111111111111111113", "11111111111111111111111111111112", 5⟩ ⟨List.replicate 32 0⟩
      ⟨List.replicate 31 0 ++ [2]⟩ ⟨List.replicate 31 0 ++ [1]⟩
      (by decide) (by decide) (by decide) (by decide) (by decide)⟩

/-- C4: For every create_token or mint_token request whose mintAuthority and
mint fields decode to valid public keys, the handler succeeds if and only if
decimals is at most 9; when decimals exceeds 9 it returns the error envelope
with message "Decimals must be between 0 and 9". -/
theorem decimals_range_check :
    (∀ r : Token.CreateTokenRequest, ∀ a m : Pubkey,
      pubkeyOfBase58 r.mint_authority = some a → pubkeyOfBase58 r.mint = some m →
      (returnsSuccessEnvelope (Token.create_token r) ↔ r.decimals ≤ 9) ∧
      (9 < r.decimals → Token.create_token r =
        Except.error (ErrorResponse.new "Decimals must be between 0 and 9"))) ∧
    (∀ r : Token.MintTokenRequest, ∀ a m : Pubkey,
      pubkeyOfBase58 r.mint_authority = some a → pubkeyOfBase58 r.mint = some m →
      (returnsSuccessEnvelope (Token.mint_token r) ↔ r.decimals ≤ 9) ∧
      (9 < r.decimals → Token.mint_token r =
        Except.error (ErrorResponse.new "Decimals must be between 0 and 9"))) := by
  refine ⟨fun r a m ha hm => ⟨⟨fun hs => ?_, fun hd => ?_⟩, fun hd => ?_⟩,
    fun r a m ha hm => ⟨⟨fun hs => ?_, fun hd => ?_⟩, fun hd => ?_⟩⟩
  · exact ((Token.create_token_isOk_iff r).mp (returnsSuccess_isOk hs)).2.2
  · exact returnsSuccess_of_isOk_true (Token.create_token_flags r)
      ((Token.create_token_isOk_iff r).mpr ⟨⟨a, ha⟩, ⟨m, hm⟩, hd⟩)
  · exact Token.create_token_decimals_err r a m ha hm hd
  · exact ((Token.mint_token_isOk_iff r).mp (returnsSuccess_isOk hs)).2.2
  · exact returnsSuccess_of_isOk_true (Token.mint_token_flags r)
      ((Token.mint_token_isOk_iff r).mpr ⟨⟨a, ha⟩, ⟨m, hm⟩, hd⟩)
  · exact Token.mint_token_decimals_err r a m ha hm hd

/-- C4 witness: with valid keys, decimals 10 yields the exact range error and
the success-iff equivalence holds concretely at decimals 6 and 10. -/
theorem decimals_range_check_witness :
    (pubkeyOfBase58 "11111111111111111111111111111111" = some ⟨List.replicate 32 0⟩ ∧
     pubkeyOfBase58 "11111111111111111111111111111112" = some ⟨List.replicate 31 0 ++ [1]⟩) ∧
    ((returnsSuccessEnvelope (Token.create_token ⟨"11111111111111111111111111111111", "11111111111111111111111111111112", 6⟩) ↔ (6 : Nat) ≤ 9) ∧
     Token.create_token ⟨"11111111111111111111111111111111", "11111111111111111111111111111112", 10⟩ =
       Except.error (ErrorResponse.new "Decimals must be between 0 and 9")) ∧
    ((returnsSuccessEnvelope (Token.mint_token ⟨"11111111111111111111111111111111", "11111111111111111111111111111112", 6⟩) ↔ (6 : Nat) ≤ 9) ∧
     Token.mint_token ⟨"11111111111111111111111111111111", "11111111111111111111111111111112", 10⟩ =
       Except.error (ErrorResponse.new "Decimals must be between 0 and 9")) :=
  ⟨⟨by decide, by decide⟩,
   ⟨(decimals_range_check.1 ⟨"11111111111111111111111111111111", "11111111111111111111111111111112", 6⟩ ⟨List.replicate 32 0⟩
       ⟨List.replicate 31 0 ++ [1]⟩ (by decide) (by decide)).1,
    (decimals_range_check.1 ⟨"11111111111111111111111111111111", "11111111111111111111111111111112", 10⟩ ⟨List.replicate 32 0⟩
       ⟨List.replicate 31 0 ++ [1]⟩ (by decide) (by decide)).2 (by decide)⟩,
   ⟨(decimals_range_check.2 ⟨"11111111111111111111111111111111", "11111111111111111111111111111112", 6⟩ ⟨List.replicate 32 0⟩
       ⟨List.replicate 31 0 ++ [1]⟩ (by decide) (by decide)).1,
    (decimals_range_check.2 ⟨"11111111111111111111111111111111", "11111111111111111111111111111112", 10⟩ ⟨List.replicate 32 0⟩
       ⟨List.replicate 31 0 ++ [1]⟩ (by decide) (by decide)).2 (by decide)⟩⟩

/-- C5: For every send_sol request, a lamports value of 0 or strictly above
500_000_000 * 1_000_000_000 is answered with the error envelope; for every
send_token request, an amount of 0 is answered with the error envelope. -/
theorem amount_range_check :
    (∀ r : Transfer.SendSolRequest,
      r.lamports = 0 ∨ r.lamports > Transfer.MAX_REASONABLE_LAMPORTS →
      returnsErrorEnvelope (Transfer.send_sol r)) ∧
    (∀ r : Token.SendTokenRequest, r.amount = 0 →
      returnsErrorEnvelope (Token.send_token r)) := by
  refine ⟨fun r h => ?_, fun r h => ?_⟩
  · apply returnsError_of_isOk_false (Transfer.send_sol_flags r)
    cases hb : resultIsOk (Transfer.send_sol r) with
    | false => rfl
    | true =>
      exfalso
      rcases (Transfer.send_sol_isOk_iff r).mp hb with ⟨p, q, -, -, hl0, hlm, -⟩
      cases h with
      | inl h => exact hl0 h
      | inr h => omega
  · apply returnsError_of_isOk_false (Token.send_token_flags r)
    cases hb : resultIsOk (Token.send_token r) with
    | false => rfl
    | true =>
      exfalso
      rcases (Token.send_token_isOk_iff r).mp hb with ⟨d, m, o, -, -, -, ha, -⟩
      exact ha h

/-- C5 witness: zero lamports, an over-supply lamports value, and a zero
token amount are each rejected. -/
theorem amount_range_check_witness :
    (returnsErrorEnvelope (Transfer.send_sol ⟨"11111111111111111111111111111111", "11111111111111111111111111111112", 0⟩)) ∧
    (returnsErrorEnvelope (Transfer.send_sol
      ⟨"11111111111111111111111111111111", "11111111111111111111111111111112", 500000000 * 1000000000 + 1⟩)) ∧
    (returnsErrorEnvelope (Token.send_token ⟨"11111111111111111111111111111111", "11111111111111111111111111111112", "11111111111111111111111111111112", 0⟩)) :=
  ⟨amount_range_check.1 ⟨"11111111111111111111111111111111", "11111111111111111111111111111112", 0⟩ (Or.inl rfl),
   amount_range_check.1 ⟨"11111111111111111111111111111111", "11111111111111111111111111111112", 500000000 * 1000000000 + 1⟩
     (Or.inr (by decide)),
   amount_range_check.2 ⟨"11111111111111111111111111111111", "11111111111111111111111111111112", "11111111111111111111111111111112", 0⟩ rfl⟩

/-- C6: For every endpoint taking string fields (create_token, mint_token,
sign_message, verify_message, send_sol, send_token), a request in which any
required string field is the empty string is answered with the error
envelope, never a success envelope. -/
theorem empty_fields_rejected :
    (∀ r : Token.CreateTokenRequest, r.mint_authority = "" ∨ r.mint = "" →
      returnsErrorEnvelope (Token.create_token r)) ∧
    (∀ r : Token.MintTokenRequest, r.mint_authority = "" ∨ r.mint = "" →
      returnsErrorEnvelope (Token.mint_token r)) ∧
    (∀ r : Message.SignMessageRequest, r.message = "" ∨ r.secret = "" →
      returnsErrorEnvelope (Message.sign_message r)) ∧
    (∀ r : Message.VerifyMessageRequest,
      r.message = "" ∨ r.signature = "" ∨ r.pubkey = "" →
      returnsErrorEnvelope (Message.verify_message r)) ∧
    (∀ r : Transfer.SendSolRequest, r.from_addr = "" ∨ r.to_addr = "" →
      returnsErrorEnvelope (Transfer.send_sol r)) ∧
    (∀ r : Token.SendTokenRequest,
      r.destination = "" ∨ r.mint = "" ∨ r.owner = "" →
      returnsErrorEnvelope (Token.send_token r)) := by
  refine ⟨fun r h => ?_, fun r h => ?_, fun r h => ?_, fun r h => ?_,
    fun r h => ?_, fun r h => ?_⟩
  · apply returnsError_of_isOk_false (Token.create_token_flags r)
    cases hb : resultIsOk (Token.create_token r) with
    | false => rfl
    | true =>
      exfalso
      rcases (Token.create_token_isOk_iff r).mp hb with ⟨⟨a, ha⟩, ⟨m, hm⟩, -⟩
      cases h with
      | inl h => rw [h, pubkeyOfBase58_nil] at ha; exact Option.noConfusion ha
      | inr h => rw [h, pubkeyOfBase58_nil] at hm; exact Option.noConfusion hm
  · apply returnsError_of_isOk_false (Token.mint_token_flags r)
    cases hb : resultIsOk (Token.mint_token r) with
    | false => rfl
    | true =>
      exfalso
      rcases (Token.mint_token_isOk_iff r).mp hb with ⟨⟨a, ha⟩, ⟨m, hm⟩, -⟩
      cases h with
      | inl h => rw [h, pubkeyOfBase58_nil] at ha; exact Option.noConfusion ha
      | inr h => rw [h, pubkeyOfBase58_nil] at hm; exact Option.noConfusion hm
  · apply returnsError_of_isOk_false (Message.sign_message_flags r)
    cases hb : resultIsOk (Message.sign_message r) with
    | false => rfl
    | true =>
      exfalso
      rcases (Message.sign_message_isOk_iff r).mp hb with ⟨hm, ⟨k, hk⟩⟩
      cases h with
      | inl h => rw [h] at hm; exact absurd hm (by decide)
      | inr h => rw [h, keypairOfBase58_nil] at hk; exact Option.noConfusion hk
  · apply returnsError_of_isOk_false (Message.verify_message_flags r)
    cases hb : resultIsOk (Message.verify_message r) with
    | false => rfl
    | true =>
      exfalso
      rcases (Message.verify_message_isOk_iff r).mp hb with ⟨hm, ⟨sg, hs⟩, ⟨p, hp⟩⟩
      rcases h with h | h | h
      · rw [h] at hm; exact absurd hm (by decide)
      · rw [h, signatureOfBase64_nil] at hs; exact Option.noConfusion hs
      · rw [h, pubkeyOfBase58_nil] at hp; exact Option.noConfusion hp
  · apply returnsError_of_isOk_false (Transfer.send_sol_flags r)
    cases hb : resultIsOk (Transfer.send_sol r) with
    | false => rfl
    | true =>
      exfalso
      rcases (Transfer.send_sol_isOk_iff r).mp hb with ⟨p, q, hp, hq, -, -, -⟩
      cases h with
      | inl h => rw [h, pubkeyOfBase58_nil] at hp; exact Option.noConfusion hp
      | inr h => rw [h, pubkeyOfBase58_nil] at hq; exact Option.noConfusion hq
  · apply returnsError_of_isOk_false (Token.send_token_flags r)
    cases hb : resultIsOk (Token.send_token r) with
    | false => rfl
    | true =>
      exfalso
      rcases (Token.send_token_isOk_iff r).mp hb with ⟨d, m, o, hd, hm, ho, -, -⟩
      rcases h with h | h | h
      · rw [h, pubkeyOfBase58_nil] at hd; exact Option.noConfusion hd
      · rw [h, pubkeyOfBase58_nil] at hm; exact Option.noConfusion hm
      · rw [h, pubkeyOfBase58_nil] at ho; exact Option.noConfusion ho

/-- C6 witness: one request per endpoint with an empty required field. -/
theorem empty_fields_rejected_witness :
    returnsErrorEnvelope (Token.create_token ⟨"", "11111111111111111111111111111111", 0⟩) ∧
    returnsErrorEnvelope (Token.mint_token ⟨"11111111111111111111111111111111", "", 0⟩) ∧
    returnsErrorEnvelope (Message.sign_message ⟨"", "sec"⟩) ∧
    returnsErrorEnvelope (Message.verify_message ⟨"hi", "", "11111111111111111111111111111111"⟩) ∧
    returnsErrorEnvelope (Transfer.send_sol ⟨"", "11111111111111111111111111111111", 1⟩) ∧
    returnsErrorEnvelope (Token.send_token ⟨"11111111111111111111111111111111", "11111111111111111111111111111111", "", 1⟩) :=
  ⟨empty_fields_rejected.1 ⟨"", "11111111111111111111111111111111", 0⟩ (Or.inl rfl),
   empty_fields_rejected.2.1 ⟨"11111111111111111111111111111111", "", 0⟩ (Or.inr rfl),
   empty_fields_rejected.2.2.1 ⟨"", "sec"⟩ (Or.inl rfl),
   empty_fields_rejected.2.2.2.1 ⟨"hi", "", "11111111111111111111111111111111"⟩ (Or.inr (Or.inl rfl)),
   empty_fields_rejected.2.2.2.2.1 ⟨"", "11111111111111111111111111111111", 1⟩ (Or.inl rfl),
   empty_fields_rejected.2.2.2.2.2 ⟨"11111111111111111111111111111111", "11111111111111111111111111111111", "", 1⟩ (Or.inr (Or.inr rfl))⟩

theorem generate_keypair_entropy_sensitive :
    generate_keypair (List.replicate 32 0) ≠ generate_keypair (List.replicate 32 1) := by
  decide

/-- C7 counterexample: `generate_keypair` is not a deterministic function of
its (empty) request: `Keypair::new()` draws fresh OS randomness, and two
runs that draw different entropy return different responses. -/
theorem generate_keypair_not_deterministic_cex :
    generate_keypair (List.replicate 32 0) ≠ generate_keypair (List.replicate 32 1) :=
  generate_keypair_entropy_sensitive

/-- C7 (amended): each of the six request-taking handlers is a pure,
deterministic function of its request value; `generate_keypair`, which takes
no request fields, is instead a deterministic function of the 32 bytes of
OS randomness drawn per call, and runs drawing distinct entropy can return
distinct responses. -/
theorem handler_determinism_amended :
    (∀ r₁ r₂ : Token.CreateTokenRequest, r₁ = r₂ →
      Token.create_token r₁ = Token.create_token r₂) ∧
    (∀ r₁ r₂ : Token.MintTokenRequest, r₁ = r₂ →
      Token.mint_token r₁ = Token.mint_token r₂) ∧
    (∀ r₁ r₂ : Message.SignMessageRequest, r₁ = r₂ →
      Message.sign_message r₁ = Message.sign_message r₂) ∧
    (∀ r₁ r₂ : Message.VerifyMessageRequest, r₁ = r₂ →
      Message.verify_message r₁ = Message.verify_message r₂) ∧
    (∀ r₁ r₂ : Transfer.SendSolRequest, r₁ = r₂ →
      Transfer.send_sol r₁ = Transfer.send_sol r₂) ∧
    (∀ r₁ r₂ : Token.SendTokenRequest, r₁ = r₂ →
      Token.send_token r₁ = Token.send_token r₂) ∧
    (∀ e₁ e₂ : List Nat, e₁ = e₂ → generate_keypair e₁ = generate_keypair e₂) ∧
    (∃ e₁ e₂ : List Nat, e₁.length = 32 ∧ e₂.length = 32 ∧
      generate_keypair e₁ ≠ generate_keypair e₂) :=
  ⟨fun _ _ h => congrArg Token.create_token h,
   fun _ _ h => congrArg Token.mint_token h,
   fun _ _ h => congrArg Message.sign_message h,
   fun _ _ h => congrArg Message.verify_message h,
   fun _ _ h => congrArg Transfer.send_sol h,
   fun _ _ h => congrArg Token.send_token h,
   fun _ _ h => congrArg generate_keypair h,
   ⟨List.replicate 32 0, List.replicate 32 1, by decide, by decide,
    generate_keypair_entropy_sensitive⟩⟩

/-- C7 witness: the determinism conjuncts instantiated at concrete
requests. -/
theorem handler_determinism_amended_witness :
    Token.create_token ⟨"a", "b", 1⟩ = Token.create_token ⟨"a", "b", 1⟩ ∧
    Token.mint_token ⟨"a", "b", 1⟩ = Token.mint_token ⟨"a", "b", 1⟩ ∧
    Message.sign_message ⟨"a", "b"⟩ = Message.sign_message ⟨"a", "b"⟩ ∧
    Message.verify_message ⟨"a", "b", "c"⟩ = Message.verify_message ⟨"a", "b", "c"⟩ ∧
    Transfer.send_sol ⟨"a", "b", 1⟩ = Transfer.send_sol ⟨"a", "b", 1⟩ ∧
    Token.send_token ⟨"a", "b", "c", 1⟩ = Token.send_token ⟨"a", "b", "c", 1⟩ ∧
    generate_keypair [] = generate_keypair [] :=
  ⟨handler_determinism_amended.1 ⟨"a", "b", 1⟩ ⟨"a", "b", 1⟩ rfl,
   handler_determinism_amended.2.1 ⟨"a", "b", 1⟩ ⟨"a", "b", 1⟩ rfl,
   handler_determinism_amended.2.2.1 ⟨"a", "b"⟩ ⟨"a", "b"⟩ rfl,
   handler_determinism_amended.2.2.2.1 ⟨"a", "b", "c"⟩ ⟨"a", "b", "c"⟩ rfl,
   handler_determinism_amended.2.2.2.2.1 ⟨"a", "b", 1⟩ ⟨"a", "b", 1⟩ rfl,
   handler_determinism_amended.2.2.2.2.2.1 ⟨"a", "b", "c", 1⟩ ⟨"a", "b", "c", 1⟩ rfl,
   handler_determinism_amended.2.2.2.2.2.2.1 [] [] rfl⟩

/-- C8: On every successful mint_token request the instruction_data is one
constant byte string, the base64 encoding of the SPL mint_to instruction
with amount fixed at 1_000_000_000, independent of every request field; and
the mint_to call site passes the request's mint as both the mint account and
the destination token account. -/
theorem mint_token_constant_data :
    (∀ r : Token.MintTokenRequest, ∀ resp : SuccessResponse Token.MintTokenResponse,
      Token.mint_token r = Except.ok resp →
      resp.data.instruction_data = base64Encode (7 :: natToLE8 1000000000)) ∧
    (∀ mint mint_authority : Pubkey,
      Token.mintTokenInstructionOf mint mint_authority = Except.ok
        { program_id := tokenProgramId
          accounts := [AccountMeta.new mint false, AccountMeta.new mint false,
                       AccountMeta.new_readonly mint_authority true]
          data := 7 :: natToLE8 1000000000 }) := by
  constructor
  · intro r resp h
    exact Token.mint_token_data_of_ok h
  · intro mint ma
    simp [Token.mintTokenInstructionOf, tokenInstructionMintTo, List.isEmpty]

set_option maxRecDepth 100000 in
/-- C8 witness: a concrete successful mint_token call carries the constant
payload, whose base64 form is "BwDKmjsAAAAA". -/
theorem mint_token_constant_data_witness :
    (Token.mint_token ⟨"11111111111111111111111111111111", "11111111111111111111111111111112", 6⟩ = Except.ok ⟨true,
      { program_id := "TokenkegQfeZyiNwAJbNbGKPFXCWuBvf9Ss623VQ5DA"
        accounts := [⟨"11111111111111111111111111111112", true, true⟩, ⟨"11111111111111111111111111111111", true, false⟩, ⟨"11111111111111111111111111111111", false, false⟩]
        instruction_data := "BwDKmjsAAAAA" }⟩) ∧
    ("BwDKmjsAAAAA" : String) = base64Encode (7 :: natToLE8 1000000000) ∧
    Token.mintTokenInstructionOf ⟨List.replicate 31 0 ++ [1]⟩ ⟨List.replicate 32 0⟩ =
      Except.ok
        { program_id := tokenProgramId
          accounts := [AccountMeta.new ⟨List.replicate 31 0 ++ [1]⟩ false,
                       AccountMeta.new ⟨List.replicate 31 0 ++ [1]⟩ false,
                       AccountMeta.new_readonly ⟨List.replicate 32 0⟩ true]
          data := 7 :: natToLE8 1000000000 } := by
  have h : Token.mint_token ⟨"11111111111111111111111111111111", "11111111111111111111111111111112", 6⟩ = Except.ok ⟨true,
      { program_id := "TokenkegQfeZyiNwAJbNbGKPFXCWuBvf9Ss623VQ5DA"
        accounts := [⟨"11111111111111111111111111111112", true, true⟩, ⟨"11111111111111111111111111111111", true, false⟩, ⟨"11111111111111111111111111111111", false, false⟩]
        instruction_data := "BwDKmjsAAAAA" }⟩ := by decide
  exact ⟨h, mint_token_constant_data.1 ⟨"11111111111111111111111111111111", "11111111111111111111111111111112", 6⟩ _ h,
    mint_token_constant_data.2 ⟨List.replicate 31 0 ++ [1]⟩ ⟨List.replicate 32 0⟩⟩

/-- C9: On every successful send_token request the transfer_checked
instruction is built with the decimals argument hardcoded to 9, so the
instruction_data depends only on the amount: it is the base64 encoding of
tag 12, the little-endian amount, and the constant decimals byte 9. -/
theorem send_token_decimals_hardcoded :
    (∀ r : Token.SendTokenRequest, ∀ resp : SuccessResponse Token.SendTokenResponse,
      Token.send_token r = Except.ok resp →
      resp.data.instruction_data = base64Encode (12 :: natToLE8 r.amount ++ [9])) ∧
    (∀ r₁ r₂ : Token.SendTokenRequest,
      ∀ resp₁ resp₂ : SuccessResponse Token.SendTokenResponse,
      r₁.amount = r₂.amount →
      Token.send_token r₁ = Except.ok resp₁ →
      Token.send_token r₂ = Except.ok resp₂ →
      resp₁.data.instruction_data = resp₂.data.instruction_data) := by
  constructor
  · intro r resp h
    exact Token.send_token_data_of_ok h
  · intro r₁ r₂ resp₁ resp₂ ha h1 h2
    rw [Token.send_token_data_of_ok h1, Token.send_token_data_of_ok h2, ha]

set_option maxRecDepth 100000 in
/-- C9 witness: a concrete successful send_token call of amount 5 carries
base64 "DAUAAAAAAAAACQ==", i.e. tag 12, little-endian 5, decimals byte 9. -/
theorem send_token_decimals_hardcoded_witness :
    (Token.send_token ⟨"11111111111111111111111111111111", "11111111111111111111111111111113", "11111111111111111111111111111112", 5⟩ = Except.ok ⟨true,
      { program_id := "TokenkegQfeZyiNwAJbNbGKPFXCWuBvf9Ss623VQ5DA"
        accounts := [⟨"1111111111111111111111111111111a", false, true⟩,
                     ⟨"11111111111111111111111111111113", false, true⟩,
                     ⟨"11111111111111111111111111111112", true, false⟩,
                     ⟨"11111111111111111111111111111113", false, false⟩,
                     ⟨"TokenkegQfeZyiNwAJbNbGKPFXCWuBvf9Ss623VQ5DA", false, false⟩]
        instruction_data := "DAUAAAAAAAAACQ==" }⟩) ∧
    ("DAUAAAAAAAAACQ==" : String) = base64Encode (12 :: natToLE8 5 ++ [9]) := by
  have h : Token.send_token ⟨"11111111111111111111111111111111", "11111111111111111111111111111113", "11111111111111111111111111111112", 5⟩ = Except.ok ⟨true,
      { program_id := "TokenkegQfeZyiNwAJbNbGKPFXCWuBvf9Ss623VQ5DA"
        accounts := [⟨"1111111111111111111111111111111a", false, true⟩,
                     ⟨"11111111111111111111111111111113", false, true⟩,
                     ⟨"11111111111111111111111111111112", true, false⟩,
                     ⟨"11111111111111111111111111111113", false, false⟩,
                     ⟨"TokenkegQfeZyiNwAJbNbGKPFXCWuBvf9Ss623VQ5DA", false, false⟩]
        instruction_data := "DAUAAAAAAAAACQ==" }⟩ := by decide
  exact ⟨h, send_token_decimals_hardcoded.1 ⟨"11111111111111111111111111111111", "11111111111111111111111111111113", "11111111111111111111111111111112", 5⟩ _ h⟩

/-- C10: On every successful sign_message call the response's message field
equals the request's message field, and on every successful verify_message
call the response's message and pubkey fields equal the corresponding
request fields: the handlers echo inputs unchanged. -/
theorem message_echo :
    (∀ r : Message.SignMessageRequest,
      ∀ resp : SuccessResponse Message.SignMessageResponse,
      Message.sign_message r = Except.ok resp →
      resp.data.message = r.message) ∧
    (∀ r : Message.VerifyMessageRequest,
      ∀ resp : SuccessResponse Message.VerifyMessageResponse,
      Message.verify_message r = Except.ok resp →
      resp.data.message = r.message ∧ resp.data.pubkey = r.pubkey) := by
  constructor
  · intro r resp h
    exact Message.sign_message_echo h
  · intro r resp h
    exact Message.verify_message_echo h

set_option maxRecDepth 100000 in
/-- C10 witness: concrete successful sign and verify calls echo the message
"hi" and the request pubkey of 32 ones. -/
theorem message_echo_witness :
    (Message.sign_message ⟨"hi", "1111111111111111111111111111111111111111111111111111111111111111"⟩ = Except.ok ⟨true,
      { signature := "0dHR0dHR0dHR0dHR0dHR0dHR0dHR0dHR0dHR0dHR0dHR0dHR0dHR0dHR0dHR0dHR0dHR0dHR0dHR0dHR0dHR0Q=="
        public_key := "11111111111111111111111111111111"
        message := "hi" }⟩) ∧
    ("hi" : String) = "hi" ∧
    (Message.verify_message ⟨"hi", "AAAAAAAAAAAAAAAAAAAAAAAAAAAAAAAAAAAAAAAAAAAAAAAAAAAAAAAAAAAAAAAAAAAAAAAAAAAAAAAAAAAAAA==", "11111111111111111111111111111111"⟩ = Except.ok ⟨true,
      { valid := false, message := "hi", pubkey := "11111111111111111111111111111111" }⟩) ∧
    (("hi" : String) = "hi" ∧ ("11111111111111111111111111111111" : String) = "11111111111111111111111111111111") := by
  have h1 : Message.sign_message ⟨"hi", "1111111111111111111111111111111111111111111111111111111111111111"⟩ = Except.ok ⟨true,
      { signature := "0dHR0dHR0dHR0dHR0dHR0dHR0dHR0dHR0dHR0dHR0dHR0dHR0dHR0dHR0dHR0dHR0dHR0dHR0dHR0dHR0dHR0Q=="
        public_key := "11111111111111111111111111111111"
        message := "hi" }⟩ := by decide
  have h2 : Message.verify_message ⟨"hi", "AAAAAAAAAAAAAAAAAAAAAAAAAAAAAAAAAAAAAAAAAAAAAAAAAAAAAAAAAAAAAAAAAAAAAAAAAAAAAAAAAAAAAA==", "11111111111111111111111111111111"⟩ = Except.ok ⟨true,
      { valid := false, message := "hi", pubkey := "11111111111111111111111111111111" }⟩ := by decide
  exact ⟨h1, message_echo.1 ⟨"hi", "1111111111111111111111111111111111111111111111111111111111111111"⟩ _ h1, h2,
    message_echo.2 ⟨"hi", "AAAAAAAAAAAAAAAAAAAAAAAAAAAAAAAAAAAAAAAAAAAAAAAAAAAAAAAAAAAAAAAAAAAAAAAAAAAAAAAAAAAAAA==", "11111111111111111111111111111111"⟩ _ h2⟩
